import Mathlib

/-!
Game Gear I/O port controller

A shallow embedding of `src/GameGearIOPorts.cpp` / `src/GameGearIOPorts.h`
(the link-cable capable port controller of the Game Gear core) together with
theorems about its register semantics and its serial transfer state machine.

Modelling conventions

* `u8` values are `Fin 256`; every result of an `int`-promoted expression that
  is stored back into a `u8` goes through an explicit truncation.
* `int` members are `Int`; the one arithmetic update of an `int` member
  (`m_clocks_until_transfer_complete -= clocks`) wraps to 32 bits explicitly.
* Controllers live in a heap `System := Nat → Console`; a `GameGearIOPorts*`
  is `Option Nat` (`none` is the null pointer, `some i` the controller at
  address `i`), so `this` is the address the operation is applied at.
* Calls into collaborators (`Processor`, `Video`, `Audio`, `Memory`) whose
  classes live outside these two files are recorded, in call order, in an
  effect trace; values obtained from collaborator getters are inputs.
* `log_cb` / `Log` diagnostics are not modelled.
-/

namespace GearSystem

/-! ## Machine words -/

/-- An 8-bit unsigned value (`u8`). -/
abbrev u8 := Fin 256

/-- Conversion of an `int`/`unsigned` expression value back to `u8`. -/
def toU8 (n : Nat) : u8 := ⟨n % 256, Nat.mod_lt n (by decide)⟩

/-- Low byte of the `int` complement `~m` of a byte-sized operand: the only
part of `~m` that survives `x & ~m` when `x` is a `u8`. -/
def bnot (m : u8) : u8 := ⟨255 - m.val, by omega⟩

/-- Two's-complement wrap of an integer to the range of a 32-bit `int`. -/
def wrapInt32 (x : Int) : Int := (x + 2147483648) % 4294967296 - 2147483648

/-- Source `getBit`: `(value >> bit) & 1` converted to `bool`. -/
def getBit (value bit : u8) : Bool := ((value.val >>> bit.val) &&& 1) != 0

/-- Source `updateBit`: `value |= (1u << bit)` or `value &= ~(1u << bit)`,
computed on 32-bit `unsigned` and stored back into the `u8`. -/
def updateBit (value bit : u8) (setToTrue : Bool) : u8 :=
  if setToTrue then toU8 (value.val ||| ((1 <<< bit.val) % 4294967296))
  else toU8 (value.val &&& (4294967295 - (1 <<< bit.val) % 4294967296))

/-! ## IEEE-754 binary64 arithmetic used by `calculateTransferClocks` -/

/-- Number of binary digits of `n`, by structural recursion on a fuel. -/
def bitLengthAux : Nat → Nat → Nat
  | 0, _ => 0
  | fuel + 1, n => if n = 0 then 0 else bitLengthAux fuel (n / 2) + 1

/-- Number of binary digits of `n`. -/
def bitLength (n : Nat) : Nat := bitLengthAux n n

/-- The `double` quotient `a / b` of two integer-valued doubles with
`1 ≤ a / b`, rounded to nearest, ties to even, on a 53-bit significand. The
result `(m, k)` stands for the double `m / 2 ^ k`. -/
def divBinary64 (a b : Nat) : Nat × Nat :=
  let k := 53 - bitLength (a / b)
  let n := a * 2 ^ k
  let m := n / b
  let r := n % b
  (if 2 * r > b ∨ (2 * r = b ∧ m % 2 = 1) then m + 1 else m, k)

/-- The expression `static_cast<int>(x * 8)` for the double `x = m / 2 ^ k`:
multiplying by 8 only changes the exponent, the cast truncates. -/
def castTimes8 (x : Nat × Nat) : Int := ((x.1 * 8 / 2 ^ x.2 : Nat) : Int)

/-! ## Data model -/

/-- Collaborator calls that change collaborator state, in call order. -/
inductive Effect where
  | RequestNMI
  | LatchHCounter
  | WriteGGStereoRegister (value : u8)
  | WriteAudioRegister (value : u8)
  | SetPort3E (value : u8)
  | WriteData (value : u8)
  | WriteControl (value : u8)
deriving DecidableEq, Repr

/-- What the collaborators bound at construction currently answer. -/
structure Collaborators where
  /-- Value of `m_pInput->GetPort00()`. -/
  GetPort00 : u8
  /-- Value of `m_pInput->GetPortDC()`. -/
  GetPortDC : u8
  /-- Value of `m_pInput->GetPortDD()`. -/
  GetPortDD : u8
  /-- Whether `m_pCartridge->GetZone() == Cartridge::CartridgeJapanGG`. -/
  zoneIsJapanGG : Bool
  /-- Value of `m_pVideo->GetVCounter()`. -/
  GetVCounter : u8
  /-- Value of `m_pVideo->GetHCounter()`. -/
  GetHCounter : u8
  /-- Value of `m_pVideo->GetDataPort()`. -/
  GetDataPort : u8
  /-- Value of `m_pVideo->GetStatusFlags()`. -/
  GetStatusFlags : u8
  /-- Whether `m_pMemory->GetProcessor()` is non-null. -/
  hasProcessor : Bool
deriving DecidableEq, Repr

/-- The data members of `class GameGearIOPorts`. The seven general ports
`m_Port0 .. m_Port6` are 8-bit registers like `m_Port3F`. -/
structure GameGearIOPorts where
  m_linkedGameGear : Option Nat
  m_Port0 : u8
  m_Port1 : u8
  m_Port2 : u8
  m_Port3 : u8
  m_Port4 : u8
  m_Port5 : u8
  m_Port6 : u8
  m_Port3F : u8
  m_Port3F_HC : u8
  m_current_serial_baudrate : Int
  m_clocks_until_transfer_complete : Int
  m_serial_transfer_active : Bool
  m_serialSendData : u8
deriving DecidableEq, Repr

/-- One console instance: the port controller, its collaborators and the
trace of collaborator calls issued so far (oldest first). -/
structure Console where
  io : GameGearIOPorts
  ext : Collaborators
  effects : List Effect
deriving DecidableEq, Repr

/-- The heap of console instances, indexed by address. -/
abbrev System := Nat → Console

/-- Member `m_serial_baurate_options`; it is initialised in the class body and
never assigned. -/
def m_serial_baurate_options : List Int := [4800, 2400, 1200, 300]

/-- Replace the controller stored at address `i`. -/
def store (sys : System) (i : Nat) (io : GameGearIOPorts) : System :=
  Function.update sys i { sys i with io := io }

/-- Number of `RequestNMI` calls recorded in a trace. -/
def nmiCount (l : List Effect) : Nat := l.count Effect.RequestNMI

/-- Number of `LatchHCounter` calls recorded in a trace. -/
def latchCount (l : List Effect) : Nat := l.count Effect.LatchHCounter

namespace GameGearIOPorts

/-! ## Operations on one controller -/

/-- Source `Reset`. -/
def Reset (c : GameGearIOPorts) : GameGearIOPorts :=
  { c with
    m_Port3F := 0
    m_Port3F_HC := 0
    m_Port0 := 0xC0
    m_Port1 := 0x7F
    m_Port2 := 0xFF
    m_Port3 := 0x00
    m_Port4 := 0xFF
    m_Port5 := 0xF8
    m_Port6 := 0xFF
    m_clocks_until_transfer_complete := 0
    m_serial_transfer_active := false }

/-- The constructor: default member initialisers of the header, then
`Reset()`. `m_linkedGameGear` has no initialiser and is not assigned, so its
value `link` is whatever the storage held. -/
def construct (link : Option Nat) : GameGearIOPorts :=
  Reset
    { m_linkedGameGear := link
      m_Port0 := 0, m_Port1 := 0, m_Port2 := 0, m_Port3 := 0, m_Port4 := 0
      m_Port5 := 0, m_Port6 := 0, m_Port3F := 0, m_Port3F_HC := 0
      m_current_serial_baudrate := 4800
      m_clocks_until_transfer_complete := 0
      m_serial_transfer_active := false
      m_serialSendData := 0x00 }

/-- Source `activeTransfer`: bit 0 (TXFL) of port 5. -/
def activeTransfer (c : GameGearIOPorts) : Bool := (c.m_Port5 &&& 0x01) != 0

/-- Source `isSerialModeEnabled`: TON (bit 4) or RON (bit 5). -/
def isSerialModeEnabled (c : GameGearIOPorts) : Bool := (c.m_Port5 &&& 0x30) != 0

/-- Source `isReceiveInterruptEnabled`: INT (bit 3). -/
def isReceiveInterruptEnabled (c : GameGearIOPorts) : Bool := (c.m_Port5 &&& 0x08) != 0

/-- Source `isReceiveEnabled`: RON (bit 5). -/
def isReceiveEnabled (c : GameGearIOPorts) : Bool := (c.m_Port5 &&& 0x20) != 0

/-- Source `isTransmitEnabled`: TON (bit 4). -/
def isTransmitEnabled (c : GameGearIOPorts) : Bool := (c.m_Port5 &&& 0x10) != 0

/-- Source `GetBaudrate`. -/
def GetBaudrate (c : GameGearIOPorts) : Int := c.m_current_serial_baudrate

/-- Source `SetBaudrate`: `m_serial_baurate_options[selection]`; an index
outside the four-entry array has no defined result. -/
def SetBaudrate (c : GameGearIOPorts) (selection : u8) : Option GameGearIOPorts :=
  match m_serial_baurate_options.get? selection.val with
  | some b => some { c with m_current_serial_baudrate := b }
  | none => none

/-- Source `calculateTransferClocks`: `static_cast<int>(clocks_per_bit * 8)`
with `clocks_per_bit = 3579545.0 / baud` in double precision. -/
def calculateTransferClocks (c : GameGearIOPorts) : Int :=
  let clocks_per_bit :=
    match c.m_current_serial_baudrate with
    | 4800 => divBinary64 3579545 4800
    | 2400 => divBinary64 3579545 2400
    | 1200 => divBinary64 3579545 1200
    | 300 => divBinary64 3579545 300
    | _ => divBinary64 3579545 4800
  castTimes8 clocks_per_bit

/-- Source `StartTransfer`. -/
def StartTransfer (c : GameGearIOPorts) : GameGearIOPorts :=
  if c.m_serial_transfer_active then c
  else
    { c with
      m_clocks_until_transfer_complete := c.calculateTransferClocks
      m_serial_transfer_active := true
      m_Port5 := c.m_Port5 ||| 0x01 }

/-- Source `setLinkedPorts`, applied to the controller at address `self`. -/
def setLinkedPorts (c : GameGearIOPorts) (self : Nat) (other : Option Nat) :
    GameGearIOPorts :=
  if other = some self then c
  else { c with m_linkedGameGear := other }

/-- Source `isOutputBit`. -/
def isOutputBit (c : GameGearIOPorts) (bit : u8) : Bool :=
  if bit = 4 ∧ getBit c.m_Port5 4 then true
  else if bit = 5 ∧ getBit c.m_Port5 5 then false
  else if getBit c.m_Port2 bit then false
  else true

/-- Source `SaveState`: two `stream.write` calls of one byte each. -/
def SaveState (c : GameGearIOPorts) (stream : List u8) : List u8 :=
  stream ++ [c.m_Port3F] ++ [c.m_Port3F_HC]

/-- Source `LoadState`: two one-byte `stream.read` calls; a read at the end of
the stream stores nothing and leaves the stream failed, so a later read stores
nothing either. Returns the controller and the unread rest of the stream. -/
def LoadState (c : GameGearIOPorts) (stream : List u8) : GameGearIOPorts × List u8 :=
  match stream with
  | [] => (c, [])
  | [a] => ({ c with m_Port3F := a }, [])
  | a :: b :: rest => ({ c with m_Port3F := a, m_Port3F_HC := b }, rest)

/-- Source `scrambleParallelBits`; a `const` member that reads no data
member, so it is a function of `data` alone. -/
def scrambleParallelBits (data : u8) : u8 :=
  let result : u8 := 0
  let result := if (data &&& 0x01) ≠ 0 then result ||| 0x04 else result
  let result := if (data &&& 0x02) ≠ 0 then result ||| 0x08 else result
  let result := if (data &&& 0x04) ≠ 0 then result ||| 0x02 else result
  let result := if (data &&& 0x08) ≠ 0 then result ||| 0x01 else result
  let result := if (data &&& 0x10) ≠ 0 then result ||| 0x20 else result
  let result := if (data &&& 0x20) ≠ 0 then result ||| 0x10 else result
  let result := if (data &&& 0x40) ≠ 0 then result ||| 0x40 else result
  result

/-- Source `unscrambleParallelBits`; a `const` member that reads no data
member, so it is a function of `data` alone. -/
def unscrambleParallelBits (data : u8) : u8 :=
  let result : u8 := 0
  let result := if (data &&& 0x04) ≠ 0 then result ||| 0x01 else result
  let result := if (data &&& 0x08) ≠ 0 then result ||| 0x02 else result
  let result := if (data &&& 0x02) ≠ 0 then result ||| 0x04 else result
  let result := if (data &&& 0x01) ≠ 0 then result ||| 0x08 else result
  let result := if (data &&& 0x20) ≠ 0 then result ||| 0x10 else result
  let result := if (data &&& 0x10) ≠ 0 then result ||| 0x20 else result
  let result := if (data &&& 0x40) ≠ 0 then result ||| 0x40 else result
  result

/-- Source `hasTriggeredParallelNMI`. -/
def hasTriggeredParallelNMI (c : GameGearIOPorts) (oldValue newValue : u8) : Bool :=
  if (c.m_Port2 &&& 0x80) = 0x00 then
    ((oldValue &&& 0x40) != 0) && ((newValue &&& 0x40) == 0)
  else false

end GameGearIOPorts

open GameGearIOPorts

/-! ## Operations that involve collaborators or the linked peer -/

/-- Source `receiveSerial`. -/
def receiveSerial (u : Console) (data : u8) : Console :=
  if !u.io.isReceiveEnabled then u
  else
    let io1 := { u.io with m_Port4 := data }
    let io2 := { io1 with m_Port5 := io1.m_Port5 ||| 0x02 }
    if io2.isReceiveInterruptEnabled then
      if u.ext.hasProcessor then
        { u with io := io2, effects := u.effects ++ [Effect.RequestNMI] }
      else { u with io := io2 }
    else { u with io := io2 }

/-- Source `sendSerial`, run by the controller at address `self`. The
argument `data` only feeds the log line; the byte handed to the peer is
`m_serialSendData`. -/
def sendSerial (sys : System) (self : Nat) (_data : u8) : System :=
  let c := (sys self).io
  let c1 := { c with m_Port5 := c.m_Port5 &&& bnot 0x01 }
  let c2 := { c1 with m_serial_transfer_active := false }
  let sys1 := store sys self c2
  match c2.m_linkedGameGear with
  | some peer => Function.update sys1 peer (receiveSerial (sys1 peer) c2.m_serialSendData)
  | none => sys1

/-- Source `UpdateSerial`, run by the controller at address `self`. -/
def UpdateSerial (sys : System) (self : Nat) (clocks : Int) : System :=
  let c := (sys self).io
  if !c.m_serial_transfer_active then sys
  else if c.m_clocks_until_transfer_complete > 0 then
    let c1 := { c with
      m_clocks_until_transfer_complete :=
        wrapInt32 (c.m_clocks_until_transfer_complete - clocks) }
    let sys1 := store sys self c1
    if c1.m_clocks_until_transfer_complete ≤ 0 then sendSerial sys1 self c1.m_Port3
    else sys1
  else sys

/-- Source `DoInput`, run by the controller at address `self`: the byte read
and the system afterwards. -/
def DoInput (sys : System) (self : Nat) (port : u8) : u8 × System :=
  let u := sys self
  let c := u.io
  if port.val < 0x07 then
    match port.val with
    | 0x00 =>
      let port00 := u.ext.GetPort00
      let port00 := if !u.ext.zoneIsJapanGG then port00 ||| 0x40 else port00
      (port00, sys)
    | 0x01 =>
      match c.m_linkedGameGear with
      | none => (c.m_Port1 &&& 0x7F, sys)
      | some peer =>
        let l := (sys peer).io
        let result := c.m_Port1
        let result := if l.isOutputBit 2 then updateBit result 0 (getBit l.m_Port1 2) else result
        let result := if l.isOutputBit 3 then updateBit result 1 (getBit l.m_Port1 3) else result
        let result := if l.isOutputBit 0 then updateBit result 2 (getBit l.m_Port1 0) else result
        let result := if l.isOutputBit 1 then updateBit result 3 (getBit l.m_Port1 1) else result
        let result := if l.isOutputBit 5 then updateBit result 4 (getBit l.m_Port1 5) else result
        let result := if l.isOutputBit 4 then updateBit result 5 (getBit l.m_Port1 4) else result
        let result := if l.isOutputBit 6 then updateBit result 6 (getBit l.m_Port1 6) else result
        (result &&& 0x7F, sys)
    | 0x02 => (c.m_Port2, sys)
    | 0x03 => (c.m_Port3, sys)
    | 0x04 =>
      let data := c.m_Port4
      (data, store sys self { c with m_Port5 := c.m_Port5 &&& bnot 0x02 })
    | 0x05 => (c.m_Port5, sys)
    | _ => (0xFF, sys)
  else if port.val < 0x40 then (0xFF, sys)
  else if port.val ≥ 0x40 ∧ port.val < 0x80 then
    if (port &&& 0x01) = 0x00 then (u.ext.GetVCounter, sys)
    else (u.ext.GetHCounter, sys)
  else if port.val ≥ 0x80 ∧ port.val < 0xC0 then
    if (port &&& 0x01) = 0x00 then (u.ext.GetDataPort, sys)
    else (u.ext.GetStatusFlags, sys)
  else
    match port.val with
    | 0xC0 => (u.ext.GetPortDC, sys)
    | 0xDC => (u.ext.GetPortDC, sys)
    | 0xC1 => ((u.ext.GetPortDD &&& 0x3F) ||| (c.m_Port3F &&& 0xC0), sys)
    | 0xDD => ((u.ext.GetPortDD &&& 0x3F) ||| (c.m_Port3F &&& 0xC0), sys)
    | _ => (0xFF, sys)

/-- Append one collaborator call to the trace of the console at `i`. -/
def emit (sys : System) (i : Nat) (e : Effect) : System :=
  Function.update sys i { sys i with effects := (sys i).effects ++ [e] }

/-- Source `DoOutput`, run by the controller at address `self`. The result is
`none` where the source dereferences a null `Processor*`
(`m_pMemory->GetProcessor()->RequestNMI()` in case `0x02`). Built without
`DEBUG_GEARSYSTEM` or with it, ports `0xC0..0xFF` change nothing. -/
def DoOutput (sys : System) (self : Nat) (port value : u8) : Option System :=
  let u := sys self
  let c := u.io
  if port.val < 0x07 then
    match port.val with
    | 0x00 => some (store sys self { c with m_Port0 := value })
    | 0x01 => some (store sys self { c with m_Port1 := value })
    | 0x02 =>
      if (c.m_Port2 &&& 0x80) = 0 then
        if (c.m_Port2 &&& 0x40) ≠ 0 ∧ (value &&& 0x40) = 0 then
          if u.ext.hasProcessor then
            some (store (emit sys self Effect.RequestNMI) self { c with m_Port2 := value })
          else none
        else some (store sys self { c with m_Port2 := value })
      else some (store sys self { c with m_Port2 := value })
    | 0x03 =>
      let c1 := { c with m_Port3 := value }
      let c2 := { c1 with m_serialSendData := value }
      if c2.activeTransfer then some (store sys self c2)
      else if c2.isSerialModeEnabled then some (store sys self c2.StartTransfer)
      else some (store sys self c2)
    | 0x04 => some sys
    | 0x05 =>
      let old_value := c.m_Port5
      let control_mask : u8 := 0xF8
      let c1 := { c with m_Port5 := (old_value &&& bnot control_mask) ||| (value &&& control_mask) }
      match c1.SetBaudrate (toU8 ((value.val >>> 6) &&& 0x03)) with
      | some c2 => some (store sys self c2)
      | none => none
    | 0x06 => some (emit sys self (Effect.WriteGGStereoRegister value))
    | _ => some sys
  else if port.val < 0x40 then
    if (port &&& 0x01) = 0x00 then some (emit sys self (Effect.SetPort3E value))
    else
      let sys1 :=
        if ((value &&& 0x01) ≠ 0 ∧ (c.m_Port3F_HC &&& 0x01) = 0) ∨
            ((value &&& 0x08) ≠ 0 ∧ (c.m_Port3F_HC &&& 0x08) = 0) then
          emit sys self Effect.LatchHCounter
        else sys
      let c1 := { c with m_Port3F_HC := value &&& 0x05 }
      let c2 := { c1 with
        m_Port3F := toU8 (((value.val &&& 0x80) ||| ((value.val &&& 0x20) <<< 1)) &&& 0xC0) }
      let c3 := if u.ext.zoneIsJapanGG then { c2 with m_Port3F := c2.m_Port3F ^^^ 0xC0 } else c2
      some (store sys1 self c3)
  else if port.val ≥ 0x40 ∧ port.val < 0x80 then
    some (emit sys self (Effect.WriteAudioRegister value))
  else if port.val ≥ 0x80 ∧ port.val < 0xC0 then
    if (port &&& 0x01) = 0x00 then some (emit sys self (Effect.WriteData value))
    else some (emit sys self (Effect.WriteControl value))
  else some sys

/-! ## Call sequences -/

/-- The public member functions, with their arguments. -/
inductive Call where
  | Reset
  | DoInput (port : u8)
  | DoOutput (port value : u8)
  | UpdateSerial (clocks : Int)
  | receiveSerial (data : u8)
  | SetBaudrate (selection : u8)
  | setLinkedPorts (other : Option Nat)
  | LoadState (stream : List u8)
deriving DecidableEq, Repr

/-- Run one public member function on the controller at address `self`;
`none` where the source has no defined outcome. -/
def exec (sys : System) (self : Nat) : Call → Option System
  | Call.Reset => some (store sys self (sys self).io.Reset)
  | Call.DoInput port => some (DoInput sys self port).2
  | Call.DoOutput port value => DoOutput sys self port value
  | Call.UpdateSerial clocks => some (UpdateSerial sys self clocks)
  | Call.receiveSerial data => some (Function.update sys self (receiveSerial (sys self) data))
  | Call.SetBaudrate selection =>
    match (sys self).io.SetBaudrate selection with
    | some c => some (store sys self c)
    | none => none
  | Call.setLinkedPorts other => some (store sys self ((sys self).io.setLinkedPorts self other))
  | Call.LoadState stream => some (store sys self ((sys self).io.LoadState stream).1)

/-- Run `UpdateSerial` on the controller at `self` once per listed clock
count, in order. -/
def runUpdateSerial (sys : System) (self : Nat) : List Int → System
  | [] => sys
  | clocks :: rest => runUpdateSerial (UpdateSerial sys self clocks) self rest

/-- Every console of the system has just been constructed. -/
def Fresh (sys : System) : Prop := ∀ i, ∃ link, (sys i).io = construct link

/-- Systems reachable from freshly constructed consoles by calls taken from
the set `allowed`, issued on any console. -/
inductive Reachable (allowed : Call → Prop) : System → Prop where
  | init (sys : System) : Fresh sys → Reachable allowed sys
  | step (sys sys1 : System) (self : Nat) (call : Call) :
      Reachable allowed sys → allowed call → exec sys self call = some sys1 →
      Reachable allowed sys1

/-- The `SerialState` invariant of one controller: the transfer-active flag
is set exactly when bit 0 (TXFL) of port 5 is set. -/
def ActiveIffTXFL (c : GameGearIOPorts) : Prop :=
  c.m_serial_transfer_active = true ↔ (c.m_Port5 &&& 0x01) ≠ 0

/-- Every call of the public interface is allowed. -/
def anyCall : Call → Prop := fun _ => True

/-- A sample console: freshly constructed, unlinked, with a processor. -/
def sampleConsole : Console :=
  { io := construct none
    ext := { GetPort00 := 0, GetPortDC := 0xFF, GetPortDD := 0xFF, zoneIsJapanGG := false
             GetVCounter := 0, GetHCounter := 0, GetDataPort := 0, GetStatusFlags := 0
             hasProcessor := true }
    effects := [] }

/-- A sample system: console 0 is linked to console 1, all others unlinked. -/
def sampleSystem : System := fun i =>
  if i = 0 then { sampleConsole with io := construct (some 1) } else sampleConsole

/-- The sample system after console 0 wrote `0x7E` to port `0x03`. -/
def sampleActive : System := (DoOutput sampleSystem 0 0x03 0x7E).getD sampleSystem

/-- Systems reachable from `start` by calls taken from the set `allowed`,
issued on any console. -/
inductive ReachableFrom (allowed : Call → Prop) (start : System) : System → Prop where
  | refl : ReachableFrom allowed start start
  | step (sys sys1 : System) (self : Nat) (call : Call) :
      ReachableFrom allowed start sys → allowed call → exec sys self call = some sys1 →
      ReachableFrom allowed start sys1

/-- No controller of the system has its own address as peer reference. -/
def NoSelfLink (sys : System) : Prop := ∀ i, (sys i).io.m_linkedGameGear ≠ some i

/-- A controller with the transfer-active flag set has a positive clock
count left. -/
def ActiveHasClocks (c : GameGearIOPorts) : Prop :=
  c.m_serial_transfer_active = true → 0 < c.m_clocks_until_transfer_complete

/-- The calls `Reset`, `DoInput`, `DoOutput`, `receiveSerial`, `LoadState`,
`SetBaudrate` with a selector in `0..3`, and `UpdateSerial` with a non-negative
`int` clock count. -/
def clockedCall : Call → Prop
  | Call.UpdateSerial clocks => 0 ≤ clocks ∧ clocks < 2147483648
  | Call.SetBaudrate selection => selection.val < 4
  | Call.setLinkedPorts _ => False
  | _ => True

/-- Number of set bits among bits 0-6 of a byte. -/
def popCount7 (x : u8) : Nat := ((List.range 7).filter (fun i => x.val.testBit i)).length

/-- All eight bits of a byte inverted. -/
def invertByte (x : u8) : u8 := x ^^^ 0xFF

/-- The sample system with Japan Game Gear cartridges. -/
def sampleJapan : System := fun i =>
  { sampleSystem i with ext := { (sampleSystem i).ext with zoneIsJapanGG := true } }

/-- The sample system with no processor behind `m_pMemory->GetProcessor()`. -/
def sampleNoProcessor : System := fun i =>
  { sampleSystem i with ext := { (sampleSystem i).ext with hasProcessor := false } }

/-- One line of the port `0x01` read: bit `src` of the peer `l` is copied into
bit `dst` of `result` when the peer drives bit `src` as an output. -/
def copyPeerBit (l : GameGearIOPorts) (result dst src : u8) : u8 :=
  if l.isOutputBit src then updateBit result dst (getBit l.m_Port1 src) else result


/-! ## Byte-level facts -/

theorem and_bnot_01 : ∀ p : u8, (p &&& bnot 0x01) = (p &&& 0xFE) := by decide!

theorem and_bnot_02 : ∀ p : u8, (p &&& bnot 0x02) = (p &&& 0xFD) := by decide!

theorem and_bnot_F8 : ∀ p : u8, (p &&& bnot 0xF8) = (p &&& 0x07) := by decide!

theorem or_01_and_01 : ∀ p : u8, ((p ||| 0x01) &&& 0x01) = 0x01 := by decide!

theorem or_01_and_30 : ∀ p : u8, ((p ||| 0x01) &&& 0x30) = (p &&& 0x30) := by decide!

theorem and_FE_and_01 : ∀ p : u8, ((p &&& 0xFE) &&& 0x01) = 0 := by decide!

theorem and_FD_and_02 : ∀ p : u8, ((p &&& 0xFD) &&& 0x02) = 0 := by decide!

theorem and_FD_and_01 : ∀ p : u8, ((p &&& 0xFD) &&& 0x01) = (p &&& 0x01) := by decide!

theorem or_02_and_01 : ∀ p : u8, ((p ||| 0x02) &&& 0x01) = (p &&& 0x01) := by decide!

theorem or_02_and_02 : ∀ p : u8, ((p ||| 0x02) &&& 0x02) = 0x02 := by decide!

theorem or_02_and_FD : ∀ p : u8, ((p ||| 0x02) &&& 0xFD) = (p &&& 0xFD) := by decide!

theorem or_02_and_08 : ∀ p : u8, ((p ||| 0x02) &&& 0x08) = (p &&& 0x08) := by decide!

theorem or_02_and_20 : ∀ p : u8, ((p ||| 0x02) &&& 0x20) = (p &&& 0x20) := by decide!

theorem selector_of_value : ∀ v : u8,
    m_serial_baurate_options.get? (toU8 ((v.val >>> 6) &&& 0x03)).val =
      m_serial_baurate_options.get? (v.val / 64) := by decide!

theorem selector_lt_four : ∀ v : u8, v.val / 64 < 4 := by decide!

theorem low3_lt (p : u8) : (p &&& 0x07).val < 8 := by
  revert p; decide!

theorem low3_and_01 : ∀ p : u8, ((p &&& 0x07) &&& 0x01) = (p &&& 0x01) := by decide!

theorem merge_low3 : ∀ (a : Fin 8) (v : u8),
    (((Fin.castLE (by decide) a : u8) ||| (v &&& 0xF8)) &&& 0x07) = Fin.castLE (by decide) a ∧
    (((Fin.castLE (by decide) a : u8) ||| (v &&& 0xF8)) &&& 0xF8) = (v &&& 0xF8) ∧
    (((Fin.castLE (by decide) a : u8) ||| (v &&& 0xF8)) &&& 0x01) =
      ((Fin.castLE (by decide) a : u8) &&& 0x01) := by
  decide!

/-- Merging status bits of `p` with control bits of `v`: the low three bits of
the result are those of `p`, the high five those of `v`. -/
theorem merge_status_control (p v : u8) :
    ((((p &&& 0x07) ||| (v &&& 0xF8)) &&& 0x07) = (p &&& 0x07)) ∧
    ((((p &&& 0x07) ||| (v &&& 0xF8)) &&& 0xF8) = (v &&& 0xF8)) ∧
    ((((p &&& 0x07) ||| (v &&& 0xF8)) &&& 0x01) = (p &&& 0x01)) := by
  have h := merge_low3 ⟨(p &&& 0x07).val, low3_lt p⟩ v
  refine ⟨h.1, h.2.1, ?_⟩
  rw [← low3_and_01 p]
  exact h.2.2

theorem or_01_and_FE_of_clear : ∀ p : u8, (p &&& 0x01) = 0 → ((p ||| 0x01) &&& 0xFE) = p := by
  decide!

theorem and_FE_and_02 : ∀ p : u8, ((p &&& 0xFE) &&& 0x02) = (p &&& 0x02) := by decide!

theorem or_01_and_02 : ∀ p : u8, ((p ||| 0x01) &&& 0x02) = (p &&& 0x02) := by decide!

/-! ## Transfer clock counts -/

theorem clocks_at_4800 : castTimes8 (divBinary64 3579545 4800) = 5965 := by decide

theorem clocks_at_2400 : castTimes8 (divBinary64 3579545 2400) = 11931 := by decide

theorem clocks_at_1200 : castTimes8 (divBinary64 3579545 1200) = 23863 := by decide

theorem clocks_at_300 : castTimes8 (divBinary64 3579545 300) = 95454 := by decide

/-- Whatever the configured rate, the computed clock count is one of the four
table values. -/
theorem calculateTransferClocks_cases (c : GameGearIOPorts) :
    c.calculateTransferClocks = 5965 ∨ c.calculateTransferClocks = 11931 ∨
      c.calculateTransferClocks = 23863 ∨ c.calculateTransferClocks = 95454 := by
  unfold calculateTransferClocks
  split
  · exact Or.inl clocks_at_4800
  · exact Or.inr (Or.inl clocks_at_2400)
  · exact Or.inr (Or.inr (Or.inl clocks_at_1200))
  · exact Or.inr (Or.inr (Or.inr clocks_at_300))
  · exact Or.inl clocks_at_4800

theorem calculateTransferClocks_pos (c : GameGearIOPorts) : 0 < c.calculateTransferClocks := by
  rcases calculateTransferClocks_cases c with h | h | h | h <;> omega

theorem calculateTransferClocks_lt (c : GameGearIOPorts) :
    c.calculateTransferClocks < 2147483648 := by
  rcases calculateTransferClocks_cases c with h | h | h | h <;> omega

theorem calculateTransferClocks_of_baud (c : GameGearIOPorts) (b : Int)
    (hb : c.m_current_serial_baudrate = b) :
    (b = 4800 → c.calculateTransferClocks = 5965) ∧
    (b = 2400 → c.calculateTransferClocks = 11931) ∧
    (b = 1200 → c.calculateTransferClocks = 23863) ∧
    (b = 300 → c.calculateTransferClocks = 95454) := by
  subst hb
  refine ⟨?_, ?_, ?_, ?_⟩ <;> intro h <;> unfold calculateTransferClocks <;> rw [h]
  · exact clocks_at_4800
  · exact clocks_at_2400
  · exact clocks_at_1200
  · exact clocks_at_300

/-! ## Evaluation of the operations -/

theorem store_same (sys : System) (i : Nat) (c : GameGearIOPorts) :
    store sys i c i = { sys i with io := c } := by
  simp [store]

theorem store_other (sys : System) (i j : Nat) (c : GameGearIOPorts) (h : j ≠ i) :
    store sys i c j = sys j := by
  simp [store, Function.update_noteq h]

theorem store_self_eq (sys : System) (i : Nat) (c : GameGearIOPorts) (h : (sys i).io = c) :
    store sys i c = sys := by
  funext j
  by_cases hj : j = i
  · subst hj; rw [store_same, ← h]
  · rw [store_other _ _ _ _ hj]

theorem store_store (sys : System) (i : Nat) (c d : GameGearIOPorts) :
    store (store sys i c) i d = store sys i d := by
  funext j
  by_cases hj : j = i
  · subst hj; simp [store_same]
  · simp [store_other _ _ _ _ hj]

theorem store_io (sys : System) (i j : Nat) (c : GameGearIOPorts) :
    (store sys i c j).io = if j = i then c else (sys j).io := by
  by_cases h : j = i
  · subst h; simp [store_same]
  · simp [store_other _ _ _ _ h, h]

theorem emit_io (sys : System) (i j : Nat) (e : Effect) : (emit sys i e j).io = (sys j).io := by
  unfold emit
  by_cases h : j = i
  · subst h; simp
  · simp [Function.update_noteq h]

theorem DoInput_01 (sys : System) (self : Nat) :
    (DoInput sys self 0x01).2 = sys := by
  show (match (sys self).io.m_linkedGameGear with
    | none => (_, sys)
    | some peer => (_, sys) : u8 × System).2 = sys
  split <;> rfl

theorem DoInput_04 (sys : System) (self : Nat) :
    DoInput sys self 0x04 =
      ((sys self).io.m_Port4,
        store sys self { (sys self).io with m_Port5 := (sys self).io.m_Port5 &&& bnot 0x02 }) :=
  rfl

theorem DoInput_05 (sys : System) (self : Nat) :
    DoInput sys self 0x05 = ((sys self).io.m_Port5, sys) :=
  rfl

theorem port_lt_7_cases (port : u8) (h7 : port.val < 7) :
    port = 0 ∨ port = 1 ∨ port = 2 ∨ port = 3 ∨ port = 4 ∨ port = 5 ∨ port = 6 := by
  have : port.val = 0 ∨ port.val = 1 ∨ port.val = 2 ∨ port.val = 3 ∨ port.val = 4 ∨
      port.val = 5 ∨ port.val = 6 := by omega
  rcases this with h | h | h | h | h | h | h
  · exact Or.inl (Fin.ext h)
  · exact Or.inr (Or.inl (Fin.ext h))
  · exact Or.inr (Or.inr (Or.inl (Fin.ext h)))
  · exact Or.inr (Or.inr (Or.inr (Or.inl (Fin.ext h))))
  · exact Or.inr (Or.inr (Or.inr (Or.inr (Or.inl (Fin.ext h)))))
  · exact Or.inr (Or.inr (Or.inr (Or.inr (Or.inr (Or.inl (Fin.ext h))))))
  · exact Or.inr (Or.inr (Or.inr (Or.inr (Or.inr (Or.inr (Fin.ext h))))))

/-- Only a read of port `0x04` changes anything. -/
theorem DoInput_snd_of_ne (sys : System) (self : Nat) (port : u8) (hp : port ≠ 4) :
    (DoInput sys self port).2 = sys := by
  by_cases h7 : port.val < 7
  · rcases port_lt_7_cases port h7 with h | h | h | h | h | h | h <;> subst h
    · rfl
    · exact DoInput_01 sys self
    · rfl
    · rfl
    · exact absurd rfl hp
    · rfl
    · rfl
  · unfold DoInput
    simp only [h7, ↓reduceIte]
    repeat' split
    all_goals rfl

theorem DoOutput_00 (sys : System) (self : Nat) (v : u8) :
    DoOutput sys self 0x00 v = some (store sys self { (sys self).io with m_Port0 := v }) :=
  rfl

theorem DoOutput_01 (sys : System) (self : Nat) (v : u8) :
    DoOutput sys self 0x01 v = some (store sys self { (sys self).io with m_Port1 := v }) :=
  rfl

theorem DoOutput_02 (sys : System) (self : Nat) (v : u8) :
    DoOutput sys self 0x02 v =
      if ((sys self).io.m_Port2 &&& 0x80) = 0 then
        if ((sys self).io.m_Port2 &&& 0x40) ≠ 0 ∧ (v &&& 0x40) = 0 then
          if (sys self).ext.hasProcessor then
            some (store (emit sys self Effect.RequestNMI) self
              { (sys self).io with m_Port2 := v })
          else none
        else some (store sys self { (sys self).io with m_Port2 := v })
      else some (store sys self { (sys self).io with m_Port2 := v }) :=
  rfl

theorem DoOutput_03 (sys : System) (self : Nat) (v : u8) :
    DoOutput sys self 0x03 v =
      if ((sys self).io.m_Port5 &&& 0x01) != 0 then
        some (store sys self { (sys self).io with m_Port3 := v, m_serialSendData := v })
      else if ((sys self).io.m_Port5 &&& 0x30) != 0 then
        some (store sys self
          ({ (sys self).io with m_Port3 := v, m_serialSendData := v } :
            GameGearIOPorts).StartTransfer)
      else some (store sys self { (sys self).io with m_Port3 := v, m_serialSendData := v }) :=
  rfl

theorem DoOutput_04 (sys : System) (self : Nat) (v : u8) :
    DoOutput sys self 0x04 v = some sys :=
  rfl

theorem DoOutput_05 (sys : System) (self : Nat) (v : u8) :
    DoOutput sys self 0x05 v =
      match ({ (sys self).io with
          m_Port5 := ((sys self).io.m_Port5 &&& bnot 0xF8) ||| (v &&& 0xF8) }).SetBaudrate
          (toU8 ((v.val >>> 6) &&& 0x03)) with
      | some c2 => some (store sys self c2)
      | none => none :=
  rfl

/-- The outcome of a port `0x05` write in closed form. -/
theorem DoOutput_05_result (sys : System) (self : Nat) (v : u8) :
    ∃ b, m_serial_baurate_options.get? (v.val / 64) = some b ∧
      DoOutput sys self 0x05 v =
        some (store sys self
          { (sys self).io with
            m_Port5 := ((sys self).io.m_Port5 &&& 0x07) ||| (v &&& 0xF8)
            m_current_serial_baudrate := b }) := by
  have hsel := selector_of_value v
  obtain ⟨b, hb⟩ : ∃ b, m_serial_baurate_options.get? (v.val / 64) = some b := by
    have h4 : v.val / 64 < m_serial_baurate_options.length := selector_lt_four v
    exact ⟨_, List.get?_eq_get h4⟩
  refine ⟨b, hb, ?_⟩
  rw [DoOutput_05]
  simp only [SetBaudrate, hsel, hb, and_bnot_F8]

theorem DoOutput_06 (sys : System) (self : Nat) (v : u8) :
    DoOutput sys self 0x06 v = some (emit sys self (Effect.WriteGGStereoRegister v)) :=
  rfl

theorem DoOutput_high (sys : System) (self : Nat) (port v : u8) (h7 : ¬ port.val < 0x07) :
    DoOutput sys self port v =
      if port.val < 0x40 then
        if (port &&& 0x01) = 0x00 then some (emit sys self (Effect.SetPort3E v))
        else
          some (store
            (if ((v &&& 0x01) ≠ 0 ∧ ((sys self).io.m_Port3F_HC &&& 0x01) = 0) ∨
                ((v &&& 0x08) ≠ 0 ∧ ((sys self).io.m_Port3F_HC &&& 0x08) = 0) then
              emit sys self Effect.LatchHCounter
            else sys)
            self
            (if (sys self).ext.zoneIsJapanGG then
              { (sys self).io with
                m_Port3F_HC := v &&& 0x05
                m_Port3F :=
                  toU8 (((v.val &&& 0x80) ||| ((v.val &&& 0x20) <<< 1)) &&& 0xC0) ^^^ 0xC0 }
            else
              { (sys self).io with
                m_Port3F_HC := v &&& 0x05
                m_Port3F := toU8 (((v.val &&& 0x80) ||| ((v.val &&& 0x20) <<< 1)) &&& 0xC0) }))
      else if port.val ≥ 0x40 ∧ port.val < 0x80 then
        some (emit sys self (Effect.WriteAudioRegister v))
      else if port.val ≥ 0x80 ∧ port.val < 0xC0 then
        if (port &&& 0x01) = 0x00 then some (emit sys self (Effect.WriteData v))
        else some (emit sys self (Effect.WriteControl v))
      else some sys := by
  unfold DoOutput
  simp only [h7, ↓reduceIte]

/-- A port `0x03` write on an idle controller with serial mode enabled starts
a transfer. -/
theorem DoOutput_03_start (sys : System) (self : Nat) (v : u8)
    (hidle : (sys self).io.m_serial_transfer_active = false)
    (htxfl : ((sys self).io.m_Port5 &&& 0x01) = 0)
    (hmode : ((sys self).io.m_Port5 &&& 0x30) ≠ 0) :
    DoOutput sys self 0x03 v =
      some (store sys self
        { (sys self).io with
          m_Port3 := v
          m_serialSendData := v
          m_clocks_until_transfer_complete := (sys self).io.calculateTransferClocks
          m_serial_transfer_active := true
          m_Port5 := (sys self).io.m_Port5 ||| 0x01 }) := by
  rw [DoOutput_03]
  simp only [htxfl, bne_self_eq_false, Bool.false_eq_true, ↓reduceIte, bne_iff_ne, ne_eq, hmode,
    not_false_eq_true, StartTransfer, hidle]
  rfl

theorem receiveSerial_disabled (u : Console) (d : u8) (h : (u.io.m_Port5 &&& 0x20) = 0) :
    receiveSerial u d = u := by
  simp [receiveSerial, isReceiveEnabled, h]

theorem receiveSerial_enabled (u : Console) (d : u8) (h : (u.io.m_Port5 &&& 0x20) ≠ 0) :
    receiveSerial u d =
      { u with
        io := { u.io with m_Port4 := d, m_Port5 := u.io.m_Port5 ||| 0x02 }
        effects :=
          if (u.io.m_Port5 &&& 0x08) ≠ 0 ∧ u.ext.hasProcessor = true
            then u.effects ++ [Effect.RequestNMI] else u.effects } := by
  by_cases h8 : (u.io.m_Port5 &&& 0x08) = 0 <;> by_cases hp : u.ext.hasProcessor = true <;>
    simp [receiveSerial, isReceiveEnabled, isReceiveInterruptEnabled, h, h8, hp, or_02_and_08]

/-- Whatever the receive path does, it leaves bit 0 of port 5, the active
flag, the link and the send byte alone. -/
theorem receiveSerial_frame (u : Console) (d : u8) :
    ((receiveSerial u d).io.m_Port5 &&& 0x01) = (u.io.m_Port5 &&& 0x01) ∧
    (receiveSerial u d).io.m_serial_transfer_active = u.io.m_serial_transfer_active ∧
    (receiveSerial u d).io.m_clocks_until_transfer_complete =
      u.io.m_clocks_until_transfer_complete ∧
    (receiveSerial u d).io.m_current_serial_baudrate = u.io.m_current_serial_baudrate := by
  by_cases h : (u.io.m_Port5 &&& 0x20) = 0
  · rw [receiveSerial_disabled u d h]
    exact ⟨rfl, rfl, rfl, rfl⟩
  · rw [receiveSerial_enabled u d h]
    exact ⟨or_02_and_01 _, rfl, rfl, rfl⟩

theorem sendSerial_none (sys : System) (self : Nat) (d : u8)
    (hl : (sys self).io.m_linkedGameGear = none) :
    sendSerial sys self d =
      store sys self
        { (sys self).io with
          m_Port5 := (sys self).io.m_Port5 &&& bnot 0x01
          m_serial_transfer_active := false } := by
  unfold sendSerial
  simp only [hl]

theorem sendSerial_some (sys : System) (self peer : Nat) (d : u8)
    (hl : (sys self).io.m_linkedGameGear = some peer) :
    sendSerial sys self d =
      Function.update
        (store sys self
          { (sys self).io with
            m_Port5 := (sys self).io.m_Port5 &&& bnot 0x01
            m_serial_transfer_active := false })
        peer
        (receiveSerial
          (store sys self
            { (sys self).io with
              m_Port5 := (sys self).io.m_Port5 &&& bnot 0x01
              m_serial_transfer_active := false } peer)
          (sys self).io.m_serialSendData) := by
  unfold sendSerial
  simp only [hl]

/-- After `sendSerial` the sender is idle: TXFL clear and the active flag
false, also when the controller is linked to itself. -/
theorem sendSerial_self_idle (sys : System) (self : Nat) (d : u8) :
    ((sendSerial sys self d self).io.m_Port5 &&& 0x01) = 0 ∧
    (sendSerial sys self d self).io.m_serial_transfer_active = false := by
  cases hl : (sys self).io.m_linkedGameGear with
  | none =>
    rw [sendSerial_none _ _ _ hl, store_same]
    exact ⟨by simp only [and_bnot_01, and_FE_and_01], rfl⟩
  | some peer =>
    rw [sendSerial_some _ _ _ _ hl]
    by_cases hp : self = peer
    · subst hp
      rw [Function.update_same]
      have hf := receiveSerial_frame
        (store sys self
          { (sys self).io with
            m_Port5 := (sys self).io.m_Port5 &&& bnot 0x01
            m_serial_transfer_active := false } self)
        (sys self).io.m_serialSendData
      rw [hf.1, hf.2.1, store_same]
      exact ⟨by simp only [and_bnot_01, and_FE_and_01], rfl⟩
    · rw [Function.update_noteq hp, store_same]
      exact ⟨by simp only [and_bnot_01, and_FE_and_01], rfl⟩

theorem SetBaudrate_frame (c c1 : GameGearIOPorts) (s : u8) (h : c.SetBaudrate s = some c1) :
    ∃ b, c1 = { c with m_current_serial_baudrate := b } := by
  unfold SetBaudrate at h
  split at h
  · cases h; exact ⟨_, rfl⟩
  · cases h

/-! ## Preservation of `ActiveIffTXFL` -/

theorem inv_store {sys : System} (h : ∀ j, ActiveIffTXFL (sys j).io) (i : Nat)
    {c : GameGearIOPorts} (hc : ActiveIffTXFL c) : ∀ j, ActiveIffTXFL (store sys i c j).io := by
  intro j
  rw [store_io]
  split
  · exact hc
  · exact h j

theorem inv_emit {sys : System} (h : ∀ j, ActiveIffTXFL (sys j).io) (i : Nat) (e : Effect) :
    ∀ j, ActiveIffTXFL (emit sys i e j).io := by
  intro j
  rw [emit_io]
  exact h j

theorem inv_update {sys : System} (h : ∀ j, ActiveIffTXFL (sys j).io) (i : Nat)
    {u : Console} (hu : ActiveIffTXFL u.io) :
    ∀ j, ActiveIffTXFL (Function.update sys i u j).io := by
  intro j
  by_cases hj : j = i
  · subst hj; simpa using hu
  · rw [Function.update_noteq hj]; exact h j

theorem inv_of_bit0 {c d : GameGearIOPorts} (hc : ActiveIffTXFL c)
    (h5 : (d.m_Port5 &&& 0x01) = (c.m_Port5 &&& 0x01))
    (ha : d.m_serial_transfer_active = c.m_serial_transfer_active) :
    ActiveIffTXFL d := by
  unfold ActiveIffTXFL at *
  rw [h5, ha]; exact hc

theorem inv_of_same {c d : GameGearIOPorts} (hc : ActiveIffTXFL c)
    (h5 : d.m_Port5 = c.m_Port5) (ha : d.m_serial_transfer_active = c.m_serial_transfer_active) :
    ActiveIffTXFL d :=
  inv_of_bit0 hc (by rw [h5]) ha

theorem inv_Reset (c : GameGearIOPorts) : ActiveIffTXFL c.Reset := by
  unfold ActiveIffTXFL Reset
  simp
  decide

theorem inv_receiveSerial {u : Console} (hu : ActiveIffTXFL u.io) (d : u8) :
    ActiveIffTXFL (receiveSerial u d).io :=
  inv_of_bit0 hu (receiveSerial_frame u d).1 (receiveSerial_frame u d).2.1

theorem inv_StartTransfer {c : GameGearIOPorts} (hc : ActiveIffTXFL c) :
    ActiveIffTXFL c.StartTransfer := by
  unfold StartTransfer
  split
  · exact hc
  · unfold ActiveIffTXFL
    simp [or_01_and_01]

theorem inv_sendSerial {sys : System} (h : ∀ j, ActiveIffTXFL (sys j).io) (self : Nat) (d : u8) :
    ∀ j, ActiveIffTXFL (sendSerial sys self d j).io := by
  have h1 : ∀ j, ActiveIffTXFL (store sys self
      { (sys self).io with
        m_Port5 := (sys self).io.m_Port5 &&& bnot 0x01
        m_serial_transfer_active := false } j).io := by
    apply inv_store h
    unfold ActiveIffTXFL
    simp [and_bnot_01, and_FE_and_01]
  cases hl : (sys self).io.m_linkedGameGear with
  | none => rw [sendSerial_none _ _ _ hl]; exact h1
  | some peer =>
    rw [sendSerial_some _ _ _ _ hl]
    exact inv_update h1 _ (inv_receiveSerial (h1 _) _)

theorem inv_UpdateSerial {sys : System} (h : ∀ j, ActiveIffTXFL (sys j).io) (self : Nat)
    (clocks : Int) : ∀ j, ActiveIffTXFL (UpdateSerial sys self clocks j).io := by
  have h1 : ∀ j, ActiveIffTXFL (store sys self
      { (sys self).io with
        m_clocks_until_transfer_complete :=
          wrapInt32 ((sys self).io.m_clocks_until_transfer_complete - clocks) } j).io :=
    inv_store h _ (inv_of_same (h self) rfl rfl)
  unfold UpdateSerial
  dsimp only
  split
  · exact h
  · split
    · split
      · exact inv_sendSerial h1 _ _
      · exact h1
    · exact h

theorem inv_DoInput {sys : System} (h : ∀ j, ActiveIffTXFL (sys j).io) (self : Nat) (port : u8) :
    ∀ j, ActiveIffTXFL ((DoInput sys self port).2 j).io := by
  by_cases hp : port = 4
  · subst hp
    rw [DoInput_04]
    apply inv_store h
    refine inv_of_bit0 (h self) ?_ rfl
    simp only [and_bnot_02, and_FD_and_01]
  · rw [DoInput_snd_of_ne sys self port hp]
    exact h

theorem inv_DoOutput {sys sys1 : System} (h : ∀ j, ActiveIffTXFL (sys j).io) (self : Nat)
    (port value : u8) (hs : DoOutput sys self port value = some sys1) :
    ∀ j, ActiveIffTXFL (sys1 j).io := by
  by_cases h7 : port.val < 7
  · rcases port_lt_7_cases port h7 with hp | hp | hp | hp | hp | hp | hp <;> subst hp
    · rw [DoOutput_00] at hs; cases hs
      exact inv_store h _ (inv_of_same (h self) rfl rfl)
    · rw [DoOutput_01] at hs; cases hs
      exact inv_store h _ (inv_of_same (h self) rfl rfl)
    · rw [DoOutput_02] at hs
      split_ifs at hs <;> cases hs
      · exact inv_store (inv_emit h _ _) _ (inv_of_same (h self) rfl rfl)
      · exact inv_store h _ (inv_of_same (h self) rfl rfl)
      · exact inv_store h _ (inv_of_same (h self) rfl rfl)
    · rw [DoOutput_03] at hs
      have h2 : ActiveIffTXFL
          ({ (sys self).io with m_Port3 := value, m_serialSendData := value } :
            GameGearIOPorts) := inv_of_same (h self) rfl rfl
      split_ifs at hs <;> cases hs
      · exact inv_store h _ h2
      · exact inv_store h _ (inv_StartTransfer h2)
      · exact inv_store h _ h2
    · rw [DoOutput_04] at hs; cases hs
      exact h
    · obtain ⟨b, -, hs1⟩ := DoOutput_05_result sys self value
      rw [hs1] at hs; cases hs
      exact inv_store h _
        (inv_of_bit0 (h self) (merge_status_control (sys self).io.m_Port5 value).2.2 rfl)
    · rw [DoOutput_06] at hs; cases hs
      exact inv_emit h _ _
  · rw [DoOutput_high _ _ _ _ h7] at hs
    split_ifs at hs <;> cases hs
    all_goals first
      | exact h
      | exact inv_emit h _ _
      | exact inv_store h _ (inv_of_same (h self) rfl rfl)
      | exact inv_store (inv_emit h _ _) _ (inv_of_same (h self) rfl rfl)

theorem inv_exec {sys sys1 : System} (h : ∀ j, ActiveIffTXFL (sys j).io) (self : Nat)
    (call : Call) (hs : exec sys self call = some sys1) : ∀ j, ActiveIffTXFL (sys1 j).io := by
  cases call with
  | Reset =>
    simp only [exec, Option.some.injEq] at hs; subst hs
    exact inv_store h _ (inv_Reset _)
  | DoInput port =>
    simp only [exec, Option.some.injEq] at hs; subst hs
    exact inv_DoInput h self port
  | DoOutput port value => exact inv_DoOutput h self port value hs
  | UpdateSerial clocks =>
    simp only [exec, Option.some.injEq] at hs; subst hs
    exact inv_UpdateSerial h self clocks
  | receiveSerial data =>
    simp only [exec, Option.some.injEq] at hs; subst hs
    exact inv_update h _ (inv_receiveSerial (h self) _)
  | SetBaudrate selection =>
    simp only [exec] at hs
    cases hb : (sys self).io.SetBaudrate selection with
    | none => rw [hb] at hs; cases hs
    | some c =>
      rw [hb] at hs
      simp only [Option.some.injEq] at hs; subst hs
      obtain ⟨b, hc⟩ := SetBaudrate_frame _ _ _ hb
      rw [hc]
      exact inv_store h _ (inv_of_same (h self) rfl rfl)
  | setLinkedPorts other =>
    simp only [exec, Option.some.injEq] at hs; subst hs
    apply inv_store h
    unfold setLinkedPorts
    split
    · exact h self
    · exact inv_of_same (h self) rfl rfl
  | LoadState stream =>
    simp only [exec, Option.some.injEq] at hs; subst hs
    apply inv_store h
    unfold LoadState
    split
    · exact h self
    · exact inv_of_same (h self) rfl rfl
    · exact inv_of_same (h self) rfl rfl

theorem inv_reachable {allowed : Call → Prop} {sys : System} (hr : Reachable allowed sys) :
    ∀ j, ActiveIffTXFL (sys j).io := by
  induction hr with
  | init sys hf =>
    intro j
    obtain ⟨link, hl⟩ := hf j
    rw [hl]
    exact inv_Reset _
  | step sys sys1 self call _ _ hs ih => exact inv_exec ih self call hs

/-! ## The countdown -/

theorem wrapInt32_of_range (x : Int) (h1 : -2147483648 ≤ x) (h2 : x < 2147483648) :
    wrapInt32 x = x := by
  unfold wrapInt32
  omega

theorem UpdateSerial_idle (sys : System) (self : Nat) (clocks : Int)
    (h : (sys self).io.m_serial_transfer_active = false) :
    UpdateSerial sys self clocks = sys := by
  unfold UpdateSerial
  simp [h]

theorem runUpdateSerial_idle (sys : System) (self : Nat) (cs : List Int)
    (h : (sys self).io.m_serial_transfer_active = false) :
    runUpdateSerial sys self cs = sys := by
  induction cs with
  | nil => rfl
  | cons c t ih => rw [runUpdateSerial, UpdateSerial_idle _ _ _ h, ih]

theorem runUpdateSerial_append (sys : System) (self : Nat) (cs ds : List Int) :
    runUpdateSerial sys self (cs ++ ds) = runUpdateSerial (runUpdateSerial sys self cs) self ds := by
  induction cs generalizing sys with
  | nil => rfl
  | cons c t ih => exact ih (UpdateSerial sys self c)

/-- A call that does not exhaust the countdown only lowers the counter. -/
theorem UpdateSerial_below (sys : System) (self : Nat) (clocks : Int)
    (hact : (sys self).io.m_serial_transfer_active = true)
    (hR : (sys self).io.m_clocks_until_transfer_complete < 2147483648)
    (h0 : 0 ≤ clocks) (hlt : clocks < (sys self).io.m_clocks_until_transfer_complete) :
    UpdateSerial sys self clocks =
      store sys self
        { (sys self).io with
          m_clocks_until_transfer_complete :=
            (sys self).io.m_clocks_until_transfer_complete - clocks } := by
  have hw : wrapInt32 ((sys self).io.m_clocks_until_transfer_complete - clocks) =
      (sys self).io.m_clocks_until_transfer_complete - clocks :=
    wrapInt32_of_range _ (by omega) (by omega)
  have hpos : 0 < (sys self).io.m_clocks_until_transfer_complete := by omega
  have hnot : ¬ (sys self).io.m_clocks_until_transfer_complete ≤ clocks := by omega
  unfold UpdateSerial
  simp [hact, hw, hpos, hnot]

/-- A call that exhausts the countdown runs `sendSerial`. -/
theorem UpdateSerial_complete (sys : System) (self : Nat) (clocks : Int)
    (hact : (sys self).io.m_serial_transfer_active = true)
    (hpos : 0 < (sys self).io.m_clocks_until_transfer_complete)
    (hR : (sys self).io.m_clocks_until_transfer_complete < 2147483648)
    (h1 : clocks < 2147483648)
    (hge : (sys self).io.m_clocks_until_transfer_complete ≤ clocks) :
    UpdateSerial sys self clocks =
      sendSerial
        (store sys self
          { (sys self).io with
            m_clocks_until_transfer_complete :=
              (sys self).io.m_clocks_until_transfer_complete - clocks })
        self (sys self).io.m_Port3 := by
  have hw : wrapInt32 ((sys self).io.m_clocks_until_transfer_complete - clocks) =
      (sys self).io.m_clocks_until_transfer_complete - clocks :=
    wrapInt32_of_range _ (by omega) (by omega)
  unfold UpdateSerial
  simp [hact, hw, hpos, hge]

theorem runUpdateSerial_below (cs : List Int) : ∀ (sys : System) (self : Nat),
    (∀ c ∈ cs, 0 ≤ c) →
    (sys self).io.m_serial_transfer_active = true →
    (sys self).io.m_clocks_until_transfer_complete < 2147483648 →
    cs.sum < (sys self).io.m_clocks_until_transfer_complete →
    runUpdateSerial sys self cs =
      store sys self
        { (sys self).io with
          m_clocks_until_transfer_complete :=
            (sys self).io.m_clocks_until_transfer_complete - cs.sum } := by
  induction cs with
  | nil =>
    intro sys self _ _ _ _
    simp only [runUpdateSerial, List.sum_nil, sub_zero]
    exact (store_self_eq _ _ _ rfl).symm
  | cons c t ih =>
    intro sys self hcs hact hR hsum
    have hc : 0 ≤ c := hcs c (List.mem_cons_self _ _)
    have ht : ∀ x ∈ t, 0 ≤ x := fun x hx => hcs x (List.mem_cons_of_mem _ hx)
    have htsum : 0 ≤ t.sum := List.sum_nonneg ht
    rw [List.sum_cons] at hsum
    rw [runUpdateSerial, UpdateSerial_below sys self c hact hR hc (by omega)]
    rw [ih _ self ht (by rw [store_same]; exact hact) (by rw [store_same]; dsimp only; omega)
      (by rw [store_same]; dsimp only; omega)]
    rw [store_store, store_same, List.sum_cons]
    simp only [sub_sub]

/-- Non-negative clock counts that add up to exactly the remaining count end
the transfer with the counter at zero, however they are split into calls. -/
theorem runUpdateSerial_exact (cs : List Int) : ∀ (sys : System) (self : Nat),
    (∀ c ∈ cs, 0 ≤ c) →
    (sys self).io.m_serial_transfer_active = true →
    0 < (sys self).io.m_clocks_until_transfer_complete →
    (sys self).io.m_clocks_until_transfer_complete < 2147483648 →
    cs.sum = (sys self).io.m_clocks_until_transfer_complete →
    runUpdateSerial sys self cs =
      sendSerial
        (store sys self { (sys self).io with m_clocks_until_transfer_complete := 0 })
        self (sys self).io.m_Port3 := by
  induction cs with
  | nil =>
    intro sys self _ _ hpos _ hsum
    simp only [List.sum_nil] at hsum
    omega
  | cons c t ih =>
    intro sys self hcs hact hpos hR hsum
    have hc : 0 ≤ c := hcs c (List.mem_cons_self _ _)
    have ht : ∀ x ∈ t, 0 ≤ x := fun x hx => hcs x (List.mem_cons_of_mem _ hx)
    have htsum : 0 ≤ t.sum := List.sum_nonneg ht
    rw [List.sum_cons] at hsum
    rw [runUpdateSerial]
    by_cases hlt : c < (sys self).io.m_clocks_until_transfer_complete
    · rw [UpdateSerial_below sys self c hact hR hc hlt]
      rw [ih _ self ht (by rw [store_same]; exact hact) (by rw [store_same]; dsimp only; omega)
        (by rw [store_same]; dsimp only; omega) (by rw [store_same]; dsimp only; omega)]
      rw [store_store, store_same]
    · have hceq : c = (sys self).io.m_clocks_until_transfer_complete := by omega
      rw [UpdateSerial_complete sys self c hact hpos hR (by omega) (by omega)]
      rw [runUpdateSerial_idle _ _ _ (sendSerial_self_idle _ _ _).2]
      rw [← hceq, sub_self]

/-! ## Samples -/

theorem fresh_sampleSystem : Fresh sampleSystem := by
  intro i
  by_cases h : i = 0
  · exact ⟨some 1, by simp [sampleSystem, h]⟩
  · exact ⟨none, by simp [sampleSystem, h, sampleConsole]⟩

theorem reachable_sampleActive : Reachable anyCall sampleActive :=
  Reachable.step sampleSystem sampleActive 0 (Call.DoOutput 0x03 0x7E)
    (Reachable.init _ fresh_sampleSystem) trivial rfl

/-- The controller left behind by a completed transfer that started from an
idle controller: port 5 is back to its old value. -/
theorem finished_controller (c : GameGearIOPorts) (v : u8)
    (hidle : c.m_serial_transfer_active = false) (htxfl : (c.m_Port5 &&& 0x01) = 0) :
    ({ c with
        m_Port3 := v
        m_serialSendData := v
        m_clocks_until_transfer_complete := 0
        m_serial_transfer_active := false
        m_Port5 := (c.m_Port5 ||| 0x01) &&& bnot 0x01 } : GameGearIOPorts) =
      { c with m_Port3 := v, m_serialSendData := v, m_clocks_until_transfer_complete := 0 } := by
  rw [and_bnot_01, or_01_and_FE_of_clear _ htxfl, ← hidle]

/-- The system after a transfer of `v` from `a` to its peer `b ≠ a` has run to
completion on an exact clock total. -/
theorem transfer_result (sys : System) (a b : Nat) (v : u8) (hab : a ≠ b)
    (hlink : (sys a).io.m_linkedGameGear = some b)
    (hidle : (sys a).io.m_serial_transfer_active = false)
    (htxfl : ((sys a).io.m_Port5 &&& 0x01) = 0)
    (hmode : ((sys a).io.m_Port5 &&& 0x30) ≠ 0) :
    ∃ sys1, DoOutput sys a 0x03 v = some sys1 ∧
      ∀ cs : List Int, (∀ c ∈ cs, 0 ≤ c) → cs.sum = (sys a).io.calculateTransferClocks →
        runUpdateSerial sys1 a cs =
          Function.update
            (store sys a
              { (sys a).io with
                m_Port3 := v, m_serialSendData := v, m_clocks_until_transfer_complete := 0 })
            b (receiveSerial (sys b) v) := by
  refine ⟨_, DoOutput_03_start sys a v hidle htxfl hmode, ?_⟩
  intro cs hcs hsum
  have hpos := calculateTransferClocks_pos (sys a).io
  have hlt := calculateTransferClocks_lt (sys a).io
  rw [runUpdateSerial_exact cs _ a hcs (by rw [store_same]) (by rw [store_same]; exact hpos)
    (by rw [store_same]; exact hlt) (by rw [store_same]; exact hsum)]
  rw [store_store, store_same]
  rw [sendSerial_some _ a b _ (by rw [store_same]; exact hlink)]
  rw [store_store, store_same]
  dsimp only
  rw [finished_controller _ v hidle htxfl, store_other _ _ _ _ (Ne.symm hab)]

/-! ## Claims -/

/-- C1: on a controller with no transfer active (active flag false, TXFL
clear) and serial mode enabled (TON or RON set in port 5), a write of any byte
`v` to port `0x03` succeeds, sets TXFL (port 5 bit 0) and loads the computed
clock count `N`. For every following sequence `cs` of non-negative clock counts
passed to `UpdateSerial`: while the running total is below `N`, TXFL is still
set; and if a further call with count `c` (an `int`, so below `2^31`) brings the
running total to `N` or more, TXFL is clear right after that call. -/
theorem C1_TXFL_tracks_countdown (sys : System) (self : Nat) (v : u8)
    (hidle : (sys self).io.m_serial_transfer_active = false)
    (htxfl : ((sys self).io.m_Port5 &&& 0x01) = 0)
    (hmode : ((sys self).io.m_Port5 &&& 0x30) ≠ 0) :
    ∃ sys1, DoOutput sys self 0x03 v = some sys1 ∧
      ((sys1 self).io.m_Port5 &&& 0x01) = 0x01 ∧
      (sys1 self).io.m_clocks_until_transfer_complete = (sys self).io.calculateTransferClocks ∧
      ∀ cs : List Int, (∀ c ∈ cs, 0 ≤ c) →
        (cs.sum < (sys self).io.calculateTransferClocks →
          ((runUpdateSerial sys1 self cs self).io.m_Port5 &&& 0x01) = 0x01) ∧
        (∀ c : Int, 0 ≤ c → c < 2147483648 →
          cs.sum < (sys self).io.calculateTransferClocks →
          (sys self).io.calculateTransferClocks ≤ cs.sum + c →
          ((runUpdateSerial sys1 self (cs ++ [c]) self).io.m_Port5 &&& 0x01) = 0) := by
  have hpos := calculateTransferClocks_pos (sys self).io
  have hlt := calculateTransferClocks_lt (sys self).io
  refine ⟨_, DoOutput_03_start sys self v hidle htxfl hmode, ?_, ?_, ?_⟩
  · rw [store_same]; exact or_01_and_01 _
  · rw [store_same]
  · intro cs hcs
    have hbelow : cs.sum < (sys self).io.calculateTransferClocks →
        runUpdateSerial (store sys self
            { (sys self).io with
              m_Port3 := v
              m_serialSendData := v
              m_clocks_until_transfer_complete := (sys self).io.calculateTransferClocks
              m_serial_transfer_active := true
              m_Port5 := (sys self).io.m_Port5 ||| 0x01 }) self cs =
          store sys self
            { (sys self).io with
              m_Port3 := v
              m_serialSendData := v
              m_clocks_until_transfer_complete :=
                (sys self).io.calculateTransferClocks - cs.sum
              m_serial_transfer_active := true
              m_Port5 := (sys self).io.m_Port5 ||| 0x01 } := by
      intro hsum
      rw [runUpdateSerial_below cs _ self hcs (by rw [store_same]) (by rw [store_same]; exact hlt)
        (by rw [store_same]; exact hsum)]
      rw [store_store, store_same]
    constructor
    · intro hsum
      rw [hbelow hsum, store_same]
      exact or_01_and_01 _
    · intro c hc0 hc1 hsum hge
      have hcsum : 0 ≤ cs.sum := List.sum_nonneg hcs
      rw [runUpdateSerial_append, hbelow hsum]
      show ((UpdateSerial _ self c self).io.m_Port5 &&& 0x01) = 0
      rw [UpdateSerial_complete _ self c (by rw [store_same])
        (by rw [store_same]; dsimp only; omega) (by rw [store_same]; dsimp only; omega) hc1
        (by rw [store_same]; dsimp only; omega)]
      exact (sendSerial_self_idle _ _ _).1

/-- Witness for C1: console 0 of the sample system writes `0x7E`; after calls
with 2000 and 3000 clocks TXFL is still set, after a third call with 965 clocks
(total 5965) it is clear. -/
theorem C1_TXFL_tracks_countdown_witness :
    (sampleSystem 0).io.m_serial_transfer_active = false ∧
    ((sampleSystem 0).io.m_Port5 &&& 0x01) = 0 ∧
    ((sampleSystem 0).io.m_Port5 &&& 0x30) ≠ 0 ∧
    ∃ sys1, DoOutput sampleSystem 0 0x03 0x7E = some sys1 ∧
      ((sys1 0).io.m_Port5 &&& 0x01) = 0x01 ∧
      ((runUpdateSerial sys1 0 [2000, 3000] 0).io.m_Port5 &&& 0x01) = 0x01 ∧
      ((runUpdateSerial sys1 0 ([2000, 3000] ++ [965]) 0).io.m_Port5 &&& 0x01) = 0 := by
  obtain ⟨sys1, h1, h2, -, h4⟩ :=
    C1_TXFL_tracks_countdown sampleSystem 0 0x7E rfl (by decide) (by decide)
  have hN : (sampleSystem 0).io.calculateTransferClocks = 5965 := by decide
  have h5 := h4 [2000, 3000] (by decide)
  rw [hN] at h5
  exact ⟨rfl, by decide, by decide, sys1, h1, h2, h5.1 (by decide),
    h5.2 965 (by decide) (by decide) (by decide) (by decide)⟩

/-- C2: two distinct controllers `a` and `b`, `a` linked to `b`, `a` idle with
serial mode enabled, RON set on `b`. After `a` writes `v` to port `0x03` and its
`UpdateSerial` is advanced by exactly the computed clock total (in one call, or
split over any calls with non-negative counts), console `b` is what one call
`receiveSerial(v)` makes of it and no third console changed: `b` reads `v` from
port `0x04`, has RXRD (port 5 bit 1) set, and got exactly one more NMI request
when its port 5 bit 3 is set and it has a processor (none otherwise). Further
`UpdateSerial` calls on `a` change nothing at all, and `a` itself only has the
byte stored in port 3 and the send buffer: its port 4, port 5 (RXRD included)
and effect trace are as before the transfer. -/
theorem C2_link_delivery (sys : System) (a b : Nat) (v : u8) (hab : a ≠ b)
    (hlink : (sys a).io.m_linkedGameGear = some b)
    (hidle : (sys a).io.m_serial_transfer_active = false)
    (htxfl : ((sys a).io.m_Port5 &&& 0x01) = 0)
    (hmode : ((sys a).io.m_Port5 &&& 0x30) ≠ 0)
    (hron : ((sys b).io.m_Port5 &&& 0x20) ≠ 0) :
    ∃ sys1 sys2, DoOutput sys a 0x03 v = some sys1 ∧
      UpdateSerial sys1 a (sys a).io.calculateTransferClocks = sys2 ∧
      (∀ cs : List Int, (∀ c ∈ cs, 0 ≤ c) → cs.sum = (sys a).io.calculateTransferClocks →
        runUpdateSerial sys1 a cs = sys2) ∧
      sys2 b = receiveSerial (sys b) v ∧
      (∀ j, j ≠ a → j ≠ b → sys2 j = sys j) ∧
      (DoInput sys2 b 0x04).1 = v ∧
      ((sys2 b).io.m_Port5 &&& 0x02) = 0x02 ∧
      (((sys b).io.m_Port5 &&& 0x08) ≠ 0 ∧ (sys b).ext.hasProcessor = true →
        (sys2 b).effects = (sys b).effects ++ [Effect.RequestNMI] ∧
        nmiCount (sys2 b).effects = nmiCount (sys b).effects + 1) ∧
      (¬ (((sys b).io.m_Port5 &&& 0x08) ≠ 0 ∧ (sys b).ext.hasProcessor = true) →
        (sys2 b).effects = (sys b).effects) ∧
      (∀ cs : List Int, runUpdateSerial sys2 a cs = sys2) ∧
      (sys2 a).io =
        { (sys a).io with
          m_Port3 := v, m_serialSendData := v, m_clocks_until_transfer_complete := 0 } ∧
      (sys2 a).io.m_Port4 = (sys a).io.m_Port4 ∧
      ((sys2 a).io.m_Port5 &&& 0x02) = ((sys a).io.m_Port5 &&& 0x02) ∧
      (sys2 a).effects = (sys a).effects := by
  obtain ⟨sys1, hs1, hrun⟩ := transfer_result sys a b v hab hlink hidle htxfl hmode
  have hone : UpdateSerial sys1 a (sys a).io.calculateTransferClocks =
      Function.update
        (store sys a
          { (sys a).io with
            m_Port3 := v, m_serialSendData := v, m_clocks_until_transfer_complete := 0 })
        b (receiveSerial (sys b) v) := by
    have h := hrun [(sys a).io.calculateTransferClocks]
      (by
        intro c hc
        rw [List.mem_singleton] at hc
        rw [hc]
        exact le_of_lt (calculateTransferClocks_pos _))
      (by simp)
    exact h
  have hb : (Function.update
        (store sys a
          { (sys a).io with
            m_Port3 := v, m_serialSendData := v, m_clocks_until_transfer_complete := 0 })
        b (receiveSerial (sys b) v)) b = receiveSerial (sys b) v := Function.update_same _ _ _
  have ha : (Function.update
        (store sys a
          { (sys a).io with
            m_Port3 := v, m_serialSendData := v, m_clocks_until_transfer_complete := 0 })
        b (receiveSerial (sys b) v)) a =
      { sys a with
        io := { (sys a).io with
          m_Port3 := v, m_serialSendData := v, m_clocks_until_transfer_complete := 0 } } := by
    rw [Function.update_noteq hab, store_same]
  have hrecv := receiveSerial_enabled (sys b) v hron
  refine ⟨sys1, _, hs1, hone, hrun, hb, ?_, ?_, ?_, ?_, ?_, ?_, ?_, ?_, ?_, ?_⟩
  · intro j hja hjb
    rw [Function.update_noteq hjb, store_other _ _ _ _ hja]
  · rw [DoInput_04, hb, hrecv]
  · rw [hb, hrecv]; exact or_02_and_02 _
  · intro hnmi
    rw [hb, hrecv]
    simp only [hnmi, ne_eq, not_false_eq_true, and_self, ↓reduceIte, true_and]
    simp [nmiCount]
  · intro hnmi
    rw [hb, hrecv]
    simp only [hnmi, ↓reduceIte]
  · intro cs
    exact runUpdateSerial_idle _ _ _ (by rw [ha]; exact hidle)
  · rw [ha]
  · rw [ha]
  · rw [ha]
  · rw [ha]

/-- Witness for C2: the sample system, console 0 sending `0x7E` to console 1,
which has RON and the receive interrupt enabled and a processor. -/
theorem C2_link_delivery_witness :
    (0 : Nat) ≠ 1 ∧ (sampleSystem 0).io.m_linkedGameGear = some 1 ∧
    (sampleSystem 0).io.m_serial_transfer_active = false ∧
    ((sampleSystem 0).io.m_Port5 &&& 0x01) = 0 ∧
    ((sampleSystem 0).io.m_Port5 &&& 0x30) ≠ 0 ∧
    ((sampleSystem 1).io.m_Port5 &&& 0x20) ≠ 0 ∧
    ∃ sys1 sys2, DoOutput sampleSystem 0 0x03 0x7E = some sys1 ∧
      UpdateSerial sys1 0 (sampleSystem 0).io.calculateTransferClocks = sys2 ∧
      (DoInput sys2 1 0x04).1 = 0x7E ∧
      ((sys2 1).io.m_Port5 &&& 0x02) = 0x02 ∧
      nmiCount (sys2 1).effects = nmiCount (sampleSystem 1).effects + 1 := by
  obtain ⟨sys1, sys2, h1, h2, -, -, -, h6, h7, h8, -⟩ :=
    C2_link_delivery sampleSystem 0 1 0x7E (by decide) rfl rfl (by decide) (by decide)
      (by decide)
  exact ⟨by decide, rfl, rfl, by decide, by decide, by decide, sys1, sys2, h1, h2, h6, h7,
    (h8 ⟨by decide, rfl⟩).2⟩

/-- C3 (as stated, refuted): on a freshly constructed controller (4800 baud)
a transfer start loads 5965 clocks, which is not `ceil(3579545 / 4800) * 8`
(= 5968). -/
theorem C3_ceil_formula_fails :
    (construct none).m_current_serial_baudrate = 4800 ∧
    (construct none).StartTransfer.m_clocks_until_transfer_complete = 5965 ∧
    ⌈(3579545 : ℚ) / 4800⌉ * 8 = 5968 ∧
    (construct none).StartTransfer.m_clocks_until_transfer_complete ≠
      ⌈(3579545 : ℚ) / 4800⌉ * 8 := by
  have hceil : ⌈(3579545 : ℚ) / 4800⌉ = 746 := by
    rw [Int.ceil_eq_iff]; norm_num
  have hval : (construct none).StartTransfer.m_clocks_until_transfer_complete = 5965 := by
    decide
  refine ⟨rfl, hval, ?_, ?_⟩
  · rw [hceil]; rfl
  · rw [hval, hceil]; decide

/-- C3 (amended): when a transfer starts on an idle controller whose rate `b`
is one of 4800, 2400, 1200, 300, the clock count loaded is the integer part of
`(3579545 / b) * 8`, that is 5965, 11931, 23863 and 95454 respectively. -/
theorem C3_transfer_clocks_truncated (c : GameGearIOPorts)
    (hidle : c.m_serial_transfer_active = false)
    (hb : c.m_current_serial_baudrate ∈ m_serial_baurate_options) :
    c.StartTransfer.m_clocks_until_transfer_complete =
      ⌊(3579545 : ℚ) / (c.m_current_serial_baudrate : ℚ) * 8⌋ ∧
    c.StartTransfer.m_clocks_until_transfer_complete =
      (if c.m_current_serial_baudrate = 4800 then 5965
        else if c.m_current_serial_baudrate = 2400 then 11931
        else if c.m_current_serial_baudrate = 1200 then 23863 else 95454) := by
  have hstart : c.StartTransfer.m_clocks_until_transfer_complete = c.calculateTransferClocks := by
    simp [StartTransfer, hidle]
  have hof := calculateTransferClocks_of_baud c _ rfl
  simp only [m_serial_baurate_options, List.mem_cons, List.mem_singleton, List.not_mem_nil,
    or_false] at hb
  rw [hstart]
  rcases hb with h | h | h | h
  · rw [hof.1 h, h]
    refine ⟨?_, by norm_num⟩
    symm; rw [Int.floor_eq_iff]; norm_num
  · rw [hof.2.1 h, h]
    refine ⟨?_, by norm_num⟩
    symm; rw [Int.floor_eq_iff]; norm_num
  · rw [hof.2.2.1 h, h]
    refine ⟨?_, by norm_num⟩
    symm; rw [Int.floor_eq_iff]; norm_num
  · rw [hof.2.2.2 h, h]
    refine ⟨?_, by norm_num⟩
    symm; rw [Int.floor_eq_iff]; norm_num

/-- Witness for C3 (amended): a freshly constructed controller switched to
1200 baud is idle, its rate is in the table, and a transfer start loads 23863
clocks. -/
theorem C3_transfer_clocks_truncated_witness :
    ({ construct none with m_current_serial_baudrate := 1200 } :
        GameGearIOPorts).m_serial_transfer_active = false ∧
    ({ construct none with m_current_serial_baudrate := 1200 } :
        GameGearIOPorts).m_current_serial_baudrate ∈ m_serial_baurate_options ∧
    ({ construct none with m_current_serial_baudrate := 1200 } :
        GameGearIOPorts).StartTransfer.m_clocks_until_transfer_complete = 23863 :=
  ⟨rfl, by decide,
    (C3_transfer_clocks_truncated
      { construct none with m_current_serial_baudrate := 1200 } rfl (by decide)).2⟩

/-- C4 (evaluation at the failing input): on the sample system, console 0
starts a transfer by writing `0x11` to port `0x03`; a second write of `0x22`
while TXFL is set still overwrites both `m_Port3` and `m_serialSendData`, and
the byte console 1 later receives is `0x22`. -/
theorem C4_active_write_overwrites :
    ∃ s1 s2, DoOutput sampleSystem 0 0x03 0x11 = some s1 ∧
      (s1 0).io.activeTransfer = true ∧ (s1 0).io.m_serial_transfer_active = true ∧
      (s1 0).io.m_Port3 = 0x11 ∧ (s1 0).io.m_serialSendData = 0x11 ∧
      DoOutput s1 0 0x03 0x22 = some s2 ∧
      (s2 0).io.m_Port3 = 0x22 ∧ (s2 0).io.m_serialSendData = 0x22 ∧
      (s2 0).io ≠ (s1 0).io ∧
      (UpdateSerial s2 0 5965 1).io.m_Port4 = 0x22 :=
  ⟨_, _, rfl, by decide, by decide, by decide, by decide, rfl, by decide, by decide,
    by decide, by decide⟩

/-- C5: `receiveSerial(d)` leaves the console untouched (registers, serial
state, effect trace) when RON (port 5 bit 5) is clear; when RON is set it stores
`d` in port 4, sets bit 1 (RXRD) of port 5, changes nothing else in the
controller, and appends exactly one `RequestNMI` to the trace when port 5 bit 3
is set and a processor is available, and nothing otherwise. -/
theorem C5_receiveSerial (u : Console) (d : u8) :
    ((u.io.m_Port5 &&& 0x20) = 0 → receiveSerial u d = u) ∧
    ((u.io.m_Port5 &&& 0x20) ≠ 0 →
      (receiveSerial u d).io = { u.io with m_Port4 := d, m_Port5 := u.io.m_Port5 ||| 0x02 } ∧
      ((receiveSerial u d).io.m_Port5 &&& 0x02) = 0x02 ∧
      ((receiveSerial u d).io.m_Port5 &&& 0xFD) = (u.io.m_Port5 &&& 0xFD) ∧
      (receiveSerial u d).ext = u.ext ∧
      (receiveSerial u d).effects =
        (if (u.io.m_Port5 &&& 0x08) ≠ 0 ∧ u.ext.hasProcessor = true
          then u.effects ++ [Effect.RequestNMI] else u.effects) ∧
      nmiCount (receiveSerial u d).effects =
        (if (u.io.m_Port5 &&& 0x08) ≠ 0 ∧ u.ext.hasProcessor = true
          then nmiCount u.effects + 1 else nmiCount u.effects)) := by
  constructor
  · exact receiveSerial_disabled u d
  · intro h
    rw [receiveSerial_enabled u d h]
    refine ⟨rfl, or_02_and_02 _, or_02_and_FD _, rfl, rfl, ?_⟩
    dsimp only
    split
    · simp [nmiCount]
    · rfl

/-- C6: `DoInput(0x04)` returns port 4 and leaves port 5 with bit 1 (RXRD)
cleared and every other bit, register, collaborator and console unchanged; a
following `DoInput(0x05)` then shows bit 1 clear and a second `DoInput(0x04)`
returns the same byte. -/
theorem C6_read_port4_clears_RXRD (sys : System) (self : Nat) :
    (DoInput sys self 0x04).1 = (sys self).io.m_Port4 ∧
    ((DoInput sys self 0x04).2 self).io =
      { (sys self).io with m_Port5 := (sys self).io.m_Port5 &&& 0xFD } ∧
    ((DoInput sys self 0x04).2 self).ext = (sys self).ext ∧
    ((DoInput sys self 0x04).2 self).effects = (sys self).effects ∧
    (∀ j, j ≠ self → (DoInput sys self 0x04).2 j = sys j) ∧
    ((DoInput (DoInput sys self 0x04).2 self 0x05).1 &&& 0x02) = 0 ∧
    (DoInput (DoInput sys self 0x04).2 self 0x04).1 = (sys self).io.m_Port4 := by
  refine ⟨rfl, ?_, ?_, ?_, ?_, ?_, ?_⟩
  · rw [DoInput_04]; simp only [store_same, and_bnot_02]
  · rw [DoInput_04]; simp only [store_same]
  · rw [DoInput_04]; simp only [store_same]
  · intro j hj; rw [DoInput_04]; exact store_other _ _ _ _ hj
  · rw [DoInput_05, DoInput_04]; simp only [store_same, and_bnot_02, and_FD_and_02]
  · rw [DoInput_04, DoInput_04]; simp only [store_same]

/-- C7: a write of `v` to port `0x05` always succeeds and leaves
`Port5 = (old Port5 & 0x07) | (v & 0xF8)`, so bits 0-2 are those of the old
port 5 and bits 3-7 those of `v`; the baud rate becomes the entry of
`[4800, 2400, 1200, 300]` selected by bits 6-7 of `v`; no other member of the
controller (clock counter and active flag included), nor its collaborators, nor
any other console changes. -/
theorem C7_write_port5 (sys : System) (self : Nat) (v : u8) :
    ∃ b sys1, DoOutput sys self 0x05 v = some sys1 ∧
      [4800, 2400, 1200, 300].get? (v.val / 64) = some b ∧
      (sys1 self).io =
        { (sys self).io with
          m_Port5 := ((sys self).io.m_Port5 &&& 0x07) ||| (v &&& 0xF8)
          m_current_serial_baudrate := b } ∧
      ((sys1 self).io.m_Port5 &&& 0x07) = ((sys self).io.m_Port5 &&& 0x07) ∧
      ((sys1 self).io.m_Port5 &&& 0xF8) = (v &&& 0xF8) ∧
      (sys1 self).io.GetBaudrate = b ∧
      (sys1 self).ext = (sys self).ext ∧
      (sys1 self).effects = (sys self).effects ∧
      (∀ j, j ≠ self → sys1 j = sys j) := by
  obtain ⟨b, hb, hs⟩ := DoOutput_05_result sys self v
  have hm := merge_status_control (sys self).io.m_Port5 v
  refine ⟨b, _, hs, hb, ?_, ?_, ?_, ?_, ?_, ?_, ?_⟩
  · rw [store_same]
  · rw [store_same]; exact hm.1
  · rw [store_same]; exact hm.2.1
  · rw [store_same]; rfl
  · rw [store_same]
  · rw [store_same]
  · intro j hj; exact store_other _ _ _ _ hj

/-- C8: for a selector `s` in `0..3`, `SetBaudrate(s)` succeeds, a following
`GetBaudrate()` returns entry `s` of the table `[4800, 2400, 1200, 300]`
(0 -> 4800, 1 -> 2400, 2 -> 1200, 3 -> 300), and no other member of the
controller changes. -/
theorem C8_SetBaudrate_GetBaudrate (c : GameGearIOPorts) (s : u8) (hs : s.val < 4) :
    ∃ c1, c.SetBaudrate s = some c1 ∧
      [4800, 2400, 1200, 300].get? s.val = some c1.GetBaudrate ∧
      c1.GetBaudrate =
        (if s = 0 then 4800 else if s = 1 then 2400 else if s = 2 then 1200 else 300) ∧
      c1 = { c with m_current_serial_baudrate := c1.GetBaudrate } := by
  have h : s = 0 ∨ s = 1 ∨ s = 2 ∨ s = 3 := by
    revert hs; revert s; decide!
  rcases h with h | h | h | h <;> subst h <;> exact ⟨_, rfl, rfl, rfl, rfl⟩

/-- Witness for C8: selector 2 on a freshly constructed controller. -/
theorem C8_SetBaudrate_GetBaudrate_witness :
    (2 : u8).val < 4 ∧
    ∃ c1, (construct none).SetBaudrate 2 = some c1 ∧
      [4800, 2400, 1200, 300].get? (2 : u8).val = some c1.GetBaudrate ∧
      c1.GetBaudrate =
        (if (2 : u8) = 0 then 4800 else if (2 : u8) = 1 then 2400
          else if (2 : u8) = 2 then 1200 else 300) ∧
      c1 = { construct none with m_current_serial_baudrate := c1.GetBaudrate } :=
  ⟨by decide, C8_SetBaudrate_GetBaudrate (construct none) 2 (by decide)⟩

/-- C9: in every system reachable from freshly constructed controllers by any
sequence of `Reset`, `DoInput`, `DoOutput`, `UpdateSerial`, `receiveSerial`,
`SetBaudrate`, `setLinkedPorts` and `LoadState` calls on any of its controllers,
every controller has its transfer-active flag set if and only if bit 0 (TXFL)
of its port 5 is set. -/
theorem C9_active_iff_TXFL (sys : System) (hr : Reachable anyCall sys) (i : Nat) :
    (sys i).io.m_serial_transfer_active = true ↔ ((sys i).io.m_Port5 &&& 0x01) ≠ 0 := by
  have hall : ∀ j, ActiveIffTXFL (sys j).io := by
    induction hr with
    | init sys hf =>
      intro j
      obtain ⟨link, hl⟩ := hf j
      rw [hl]
      exact inv_Reset _
    | step sys sys1 self call _ _ hs ih => exact inv_exec ih self call hs
  exact hall i

/-- Witness for C9: the sample system after console 0 started a transfer is
reachable, and there the flag and TXFL are both set. -/
theorem C9_active_iff_TXFL_witness :
    Reachable anyCall sampleActive ∧
    ((sampleActive 0).io.m_serial_transfer_active = true ↔
      ((sampleActive 0).io.m_Port5 &&& 0x01) ≠ 0) ∧
    (sampleActive 0).io.m_serial_transfer_active = true :=
  ⟨reachable_sampleActive, C9_active_iff_TXFL sampleActive reachable_sampleActive 0, by decide⟩

/-- C10 (evaluation at the failing input): directly after construction port 5
holds `0xF8`, whose bits 6-7 select table entry 3 (300 baud, 95454 clocks), but
the rate in use is 4800 and a transfer start loads 5965 clocks; the same holds
after `Reset`. -/
theorem C10_fresh_baud_mismatch :
    (construct none).m_Port5 = 0xF8 ∧
    m_serial_baurate_options.get? ((construct none).m_Port5.val / 64) = some 300 ∧
    (construct none).GetBaudrate = 4800 ∧
    (construct none).StartTransfer.m_clocks_until_transfer_complete = 5965 ∧
    (construct none).Reset.m_Port5 = 0xF8 ∧
    (construct none).Reset.GetBaudrate = 4800 ∧
    (∃ s1, DoOutput sampleSystem 0 0x03 0x7E = some s1 ∧
      (s1 0).io.m_clocks_until_transfer_complete = 5965 ∧
      ({ (s1 0).io with m_current_serial_baudrate := 300 } :
        GameGearIOPorts).calculateTransferClocks = 95454) :=
  ⟨by decide, by decide, by decide, by decide, by decide, by decide,
    ⟨_, rfl, by decide, by decide⟩⟩

/-! ## A preservation scheme for controller invariants

`P j c` is a property of the controller `c` stored at address `j` that looks
only at the link, the active flag and the clock counter. -/

theorem receiveSerial_link (u : Console) (d : u8) :
    (receiveSerial u d).io.m_linkedGameGear = u.io.m_linkedGameGear := by
  by_cases h : (u.io.m_Port5 &&& 0x20) = 0
  · rw [receiveSerial_disabled u d h]
  · rw [receiveSerial_enabled u d h]

theorem pres_store {P : Nat → GameGearIOPorts → Prop} {sys : System}
    (h : ∀ j, P j (sys j).io) (i : Nat) {c : GameGearIOPorts} (hc : P i c) :
    ∀ j, P j (store sys i c j).io := by
  intro j
  rw [store_io]
  split
  · rename_i hj; rw [hj]; exact hc
  · exact h j

theorem pres_emit {P : Nat → GameGearIOPorts → Prop} {sys : System}
    (h : ∀ j, P j (sys j).io) (i : Nat) (e : Effect) : ∀ j, P j (emit sys i e j).io := by
  intro j
  rw [emit_io]
  exact h j

theorem pres_update {P : Nat → GameGearIOPorts → Prop} {sys : System}
    (h : ∀ j, P j (sys j).io) (i : Nat) {u : Console} (hu : P i u.io) :
    ∀ j, P j (Function.update sys i u j).io := by
  intro j
  by_cases hj : j = i
  · subst hj; simpa using hu
  · rw [Function.update_noteq hj]; exact h j

theorem pres_sendSerial {P : Nat → GameGearIOPorts → Prop}
    (hframe : ∀ j c d, d.m_linkedGameGear = c.m_linkedGameGear →
      d.m_serial_transfer_active = c.m_serial_transfer_active →
      d.m_clocks_until_transfer_complete = c.m_clocks_until_transfer_complete → P j c → P j d)
    (hsend : ∀ j c x p, P j c → P j
      { c with
        m_clocks_until_transfer_complete := x, m_Port5 := p, m_serial_transfer_active := false })
    {sys : System} (h : ∀ j, P j (sys j).io) (self : Nat) (x : Int) (d : u8) :
    ∀ j, P j (sendSerial
      (store sys self { (sys self).io with m_clocks_until_transfer_complete := x }) self d j).io := by
  have h1 : ∀ j, P j (store sys self
      { (sys self).io with
        m_clocks_until_transfer_complete := x
        m_Port5 := (sys self).io.m_Port5 &&& bnot 0x01
        m_serial_transfer_active := false } j).io :=
    pres_store h self (hsend self _ x _ (h self))
  cases hl : (sys self).io.m_linkedGameGear with
  | none =>
    rw [sendSerial_none _ _ _ (by rw [store_same]; exact hl), store_store, store_same]
    exact h1
  | some peer =>
    rw [sendSerial_some _ _ peer _ (by rw [store_same]; exact hl), store_store, store_same]
    refine pres_update h1 peer ?_
    exact hframe peer _ _ (receiveSerial_link _ _) (receiveSerial_frame _ _).2.1
      (receiveSerial_frame _ _).2.2.1 (h1 peer)

theorem pres_UpdateSerial {P : Nat → GameGearIOPorts → Prop}
    (hframe : ∀ j c d, d.m_linkedGameGear = c.m_linkedGameGear →
      d.m_serial_transfer_active = c.m_serial_transfer_active →
      d.m_clocks_until_transfer_complete = c.m_clocks_until_transfer_complete → P j c → P j d)
    (hclock : ∀ j c x, P j c → 0 < x → P j { c with m_clocks_until_transfer_complete := x })
    (hsend : ∀ j c x p, P j c → P j
      { c with
        m_clocks_until_transfer_complete := x, m_Port5 := p, m_serial_transfer_active := false })
    {sys : System} (h : ∀ j, P j (sys j).io) (self : Nat) (clocks : Int) :
    ∀ j, P j (UpdateSerial sys self clocks j).io := by
  unfold UpdateSerial
  dsimp only
  split
  · exact h
  · split
    · split
      · exact pres_sendSerial hframe hsend h self _ _
      · rename_i hpos
        exact pres_store h self (hclock self _ _ (h self) (by omega))
    · exact h

theorem pres_DoOutput {P : Nat → GameGearIOPorts → Prop}
    (hframe : ∀ j c d, d.m_linkedGameGear = c.m_linkedGameGear →
      d.m_serial_transfer_active = c.m_serial_transfer_active →
      d.m_clocks_until_transfer_complete = c.m_clocks_until_transfer_complete → P j c → P j d)
    (hstart : ∀ j c, P j c → P j c.StartTransfer)
    {sys sys1 : System} (h : ∀ j, P j (sys j).io) (self : Nat) (port value : u8)
    (hs : DoOutput sys self port value = some sys1) : ∀ j, P j (sys1 j).io := by
  by_cases h7 : port.val < 7
  · rcases port_lt_7_cases port h7 with hp | hp | hp | hp | hp | hp | hp <;> subst hp
    · rw [DoOutput_00] at hs; cases hs
      exact pres_store h _ (hframe _ (sys self).io _ rfl rfl rfl (h self))
    · rw [DoOutput_01] at hs; cases hs
      exact pres_store h _ (hframe _ (sys self).io _ rfl rfl rfl (h self))
    · rw [DoOutput_02] at hs
      split_ifs at hs <;> cases hs
      · exact pres_store (pres_emit h _ _) _ (hframe _ (sys self).io _ rfl rfl rfl (h self))
      · exact pres_store h _ (hframe _ (sys self).io _ rfl rfl rfl (h self))
      · exact pres_store h _ (hframe _ (sys self).io _ rfl rfl rfl (h self))
    · rw [DoOutput_03] at hs
      have h2 : P self
          ({ (sys self).io with m_Port3 := value, m_serialSendData := value } :
            GameGearIOPorts) := hframe _ (sys self).io _ rfl rfl rfl (h self)
      split_ifs at hs <;> cases hs
      · exact pres_store h _ h2
      · exact pres_store h _ (hstart _ _ h2)
      · exact pres_store h _ h2
    · rw [DoOutput_04] at hs; cases hs
      exact h
    · obtain ⟨b, -, hs1⟩ := DoOutput_05_result sys self value
      rw [hs1] at hs; cases hs
      exact pres_store h _ (hframe _ (sys self).io _ rfl rfl rfl (h self))
    · rw [DoOutput_06] at hs; cases hs
      exact pres_emit h _ _
  · rw [DoOutput_high _ _ _ _ h7] at hs
    split_ifs at hs <;> cases hs
    all_goals first
      | exact h
      | exact pres_emit h _ _
      | exact pres_store h _ (hframe _ (sys self).io _ rfl rfl rfl (h self))
      | exact pres_store (pres_emit h _ _) _ (hframe _ (sys self).io _ rfl rfl rfl (h self))

/-- Every public call preserves a controller property that only looks at the
link, the active flag and the clock counter, provided the six elementary
updates do. -/
theorem pres_exec {P : Nat → GameGearIOPorts → Prop}
    (hframe : ∀ j c d, d.m_linkedGameGear = c.m_linkedGameGear →
      d.m_serial_transfer_active = c.m_serial_transfer_active →
      d.m_clocks_until_transfer_complete = c.m_clocks_until_transfer_complete → P j c → P j d)
    (hreset : ∀ j c, P j c → P j c.Reset)
    (hstart : ∀ j c, P j c → P j c.StartTransfer)
    (hclock : ∀ j c x, P j c → 0 < x → P j { c with m_clocks_until_transfer_complete := x })
    (hsend : ∀ j c x p, P j c → P j
      { c with
        m_clocks_until_transfer_complete := x, m_Port5 := p, m_serial_transfer_active := false })
    (hlink : ∀ j c o, P j c → P j (c.setLinkedPorts j o))
    {sys sys1 : System} (h : ∀ j, P j (sys j).io) (self : Nat) (call : Call)
    (hs : exec sys self call = some sys1) : ∀ j, P j (sys1 j).io := by
  cases call with
  | Reset =>
    simp only [exec, Option.some.injEq] at hs; subst hs
    exact pres_store h _ (hreset _ _ (h self))
  | DoInput port =>
    simp only [exec, Option.some.injEq] at hs; subst hs
    by_cases hp : port = 4
    · subst hp
      rw [DoInput_04]
      exact pres_store h _ (hframe _ (sys self).io _ rfl rfl rfl (h self))
    · rw [DoInput_snd_of_ne sys self port hp]
      exact h
  | DoOutput port value => exact pres_DoOutput hframe hstart h self port value hs
  | UpdateSerial clocks =>
    simp only [exec, Option.some.injEq] at hs; subst hs
    exact pres_UpdateSerial hframe hclock hsend h self clocks
  | receiveSerial data =>
    simp only [exec, Option.some.injEq] at hs; subst hs
    exact pres_update h _ (hframe _ _ _ (receiveSerial_link _ _) (receiveSerial_frame _ _).2.1
      (receiveSerial_frame _ _).2.2.1 (h self))
  | SetBaudrate selection =>
    simp only [exec] at hs
    cases hb : (sys self).io.SetBaudrate selection with
    | none => rw [hb] at hs; cases hs
    | some c =>
      rw [hb] at hs
      simp only [Option.some.injEq] at hs; subst hs
      obtain ⟨b, hc⟩ := SetBaudrate_frame _ _ _ hb
      rw [hc]
      exact pres_store h _ (hframe _ (sys self).io _ rfl rfl rfl (h self))
  | setLinkedPorts other =>
    simp only [exec, Option.some.injEq] at hs; subst hs
    exact pres_store h _ (hlink _ _ _ (h self))
  | LoadState stream =>
    simp only [exec, Option.some.injEq] at hs; subst hs
    apply pres_store h
    unfold LoadState
    split
    · exact h self
    · exact hframe _ (sys self).io _ rfl rfl rfl (h self)
    · exact hframe _ (sys self).io _ rfl rfl rfl (h self)

/-! ## Single bits -/

theorem getBit_eq_testBit (x k : u8) : getBit x k = x.val.testBit k.val := by
  unfold getBit Nat.testBit
  rw [Nat.and_comm]

theorem two_pow_lt_256 (d : Nat) (hd : d < 8) : 2 ^ d < 256 := by
  interval_cases d <;> decide

/-- Source `updateBit` sets bit `d` to `b` and leaves the other bits alone. -/
theorem getBit_updateBit (r d k : u8) (b : Bool) (hd : d.val < 8) (hk8 : k.val < 8) :
    getBit (updateBit r d b) k = if k = d then b else getBit r k := by
  rw [getBit_eq_testBit, getBit_eq_testBit]
  have h2 : 2 ^ d.val < 256 := two_pow_lt_256 _ hd
  have hkd : (k = d) ↔ (d.val = k.val) := by
    constructor
    · intro h; rw [h]
    · intro h; exact Fin.ext h.symm
  unfold updateBit toU8
  cases b
  · simp only [Bool.false_eq_true, ↓reduceIte, Nat.one_shiftLeft]
    rw [Nat.mod_eq_of_lt (by omega : 2 ^ d.val < 4294967296)]
    have : (r.val &&& (4294967295 - 2 ^ d.val)) % 256 = r.val &&& (4294967295 - 2 ^ d.val) :=
      Nat.mod_eq_of_lt (lt_of_le_of_lt Nat.and_le_left r.isLt)
    simp only [this, Nat.testBit_and]
    have h3 : 4294967295 - 2 ^ d.val = 2 ^ 32 - (2 ^ d.val + 1) := by omega
    rw [h3, Nat.testBit_two_pow_sub_succ (by omega : 2 ^ d.val < 2 ^ 32), Nat.testBit_two_pow]
    by_cases h : d.val = k.val
    · simp [h, hkd.2 h]
    · have : ¬ k = d := fun hh => h (hkd.1 hh)
      have hk : k.val < 32 := by omega
      simp [h, this, hk]
  · simp only [↓reduceIte, Nat.one_shiftLeft]
    rw [Nat.mod_eq_of_lt (by omega : 2 ^ d.val < 4294967296)]
    have : (r.val ||| 2 ^ d.val) % 256 = r.val ||| 2 ^ d.val :=
      Nat.mod_eq_of_lt (Nat.or_lt_two_pow (n := 8) r.isLt h2)
    simp only [this, Nat.testBit_or, Nat.testBit_two_pow]
    by_cases h : d.val = k.val
    · simp [h, hkd.2 h]
    · have : ¬ k = d := fun hh => h (hkd.1 hh)
      simp [h, this]

/-- A conditional `updateBit`, as in the port `0x01` read. -/
theorem getBit_condUpdate (o : Bool) (r d k : u8) (b : Bool) (hd : d.val < 8)
    (hk8 : k.val < 8) :
    getBit (if o = true then updateBit r d b else r) k =
      if o = true ∧ k = d then b else getBit r k := by
  cases o
  · simp
  · simp [getBit_updateBit r d k b hd hk8]

theorem getBit_and_7F_fin : ∀ (k : Fin 8) (r : u8),
    getBit (r &&& 0x7F) (Fin.castLE (by decide) k) =
      if k = 7 then false else getBit r (Fin.castLE (by decide) k) := by
  decide!

theorem getBit_and_7F (r k : u8) (hk : k.val < 8) :
    getBit (r &&& 0x7F) k = if k = 7 then false else getBit r k := by
  have h := getBit_and_7F_fin ⟨k.val, hk⟩ r
  have hk7 : ((⟨k.val, hk⟩ : Fin 8) = 7) ↔ (k = 7) := by
    constructor
    · intro h7; exact Fin.ext (by simpa using congrArg Fin.val h7)
    · intro h7; exact Fin.ext (by simpa using congrArg Fin.val h7)
  simpa [hk7] using h

theorem getBit_4_iff : ∀ p : u8, getBit p 4 = true ↔ (p &&& 0x10) ≠ 0 := by decide!

theorem getBit_5_iff : ∀ p : u8, getBit p 5 = true ↔ (p &&& 0x20) ≠ 0 := by decide!

theorem or_40_bits : ∀ p : u8, ((p ||| 0x40) &&& 0x40) = 0x40 ∧ ((p ||| 0x40) &&& 0xBF) = (p &&& 0xBF) := by
  decide!

/-- The byte derived from a value written to the I/O control port. -/
theorem port3F_bits : ∀ v : u8,
    getBit (toU8 (((v.val &&& 0x80) ||| ((v.val &&& 0x20) <<< 1)) &&& 0xC0)) 7 = getBit v 7 ∧
    getBit (toU8 (((v.val &&& 0x80) ||| ((v.val &&& 0x20) <<< 1)) &&& 0xC0)) 6 = getBit v 5 ∧
    (toU8 (((v.val &&& 0x80) ||| ((v.val &&& 0x20) <<< 1)) &&& 0xC0) &&& 0x3F) = 0 := by
  decide!

theorem port3F_bits_japan : ∀ v : u8,
    getBit (toU8 (((v.val &&& 0x80) ||| ((v.val &&& 0x20) <<< 1)) &&& 0xC0) ^^^ 0xC0) 7 =
      !getBit v 7 ∧
    getBit (toU8 (((v.val &&& 0x80) ||| ((v.val &&& 0x20) <<< 1)) &&& 0xC0) ^^^ 0xC0) 6 =
      !getBit v 5 ∧
    ((toU8 (((v.val &&& 0x80) ||| ((v.val &&& 0x20) <<< 1)) &&& 0xC0) ^^^ 0xC0) &&& 0x3F) = 0 := by
  decide!

/-! ## Reset, persistence and the link -/

theorem Reset_Reset (c : GameGearIOPorts) : c.Reset.Reset = c.Reset := rfl

theorem exec_Reset (sys : System) (self : Nat) :
    exec sys self Call.Reset = some (store sys self (sys self).io.Reset) := rfl

/-- C11: `Reset`, applied to the controller at any address of any system (a
transfer may be in flight), yields Port0 = 0xC0, Port1 = 0x7F, Port2 = 0xFF,
Port3 = 0x00, Port4 = 0xFF, Port5 = 0xF8, Port6 = 0xFF, Port3F = 0,
Port3F_HC = 0, clock counter 0, active flag false and TXFL clear, and touches
no other console; any further `UpdateSerial` calls on it, with any clock
counts, then leave the whole system (the peer included) unchanged; and `Reset`
is idempotent, on the controller and on the system. -/
theorem C11_Reset (sys : System) (self : Nat) :
    ∃ sys1, exec sys self Call.Reset = some sys1 ∧
      (sys1 self).io.m_Port0 = 0xC0 ∧ (sys1 self).io.m_Port1 = 0x7F ∧
      (sys1 self).io.m_Port2 = 0xFF ∧ (sys1 self).io.m_Port3 = 0x00 ∧
      (sys1 self).io.m_Port4 = 0xFF ∧ (sys1 self).io.m_Port5 = 0xF8 ∧
      (sys1 self).io.m_Port6 = 0xFF ∧ (sys1 self).io.m_Port3F = 0 ∧
      (sys1 self).io.m_Port3F_HC = 0 ∧
      (sys1 self).io.m_clocks_until_transfer_complete = 0 ∧
      (sys1 self).io.m_serial_transfer_active = false ∧
      ((sys1 self).io.m_Port5 &&& 0x01) = 0 ∧
      (∀ j, j ≠ self → sys1 j = sys j) ∧
      (∀ cs : List Int, runUpdateSerial sys1 self cs = sys1) ∧
      (sys self).io.Reset.Reset = (sys self).io.Reset ∧
      exec sys1 self Call.Reset = some sys1 := by
  refine ⟨store sys self (sys self).io.Reset, rfl, ?_, ?_, ?_, ?_, ?_, ?_, ?_, ?_, ?_, ?_, ?_, ?_,
    ?_, ?_, rfl, ?_⟩
  any_goals (rw [store_same]; rfl)
  · intro j hj; exact store_other _ _ _ _ hj
  · intro cs
    exact runUpdateSerial_idle _ _ _ (by rw [store_same]; rfl)
  · rw [exec_Reset, store_same, store_store]
    rfl

/-- C12: `SaveState` appends exactly two bytes to the stream, `m_Port3F`
followed by `m_Port3F_HC` (it assigns no member, so its embedding returns the
stream only); `LoadState` of the bytes saved from a controller `s`, run on any
target controller `t`, gives `t` with `m_Port3F` and `m_Port3F_HC` replaced by
those of `s`, every other member (registers, serial-transfer fields, link) kept,
and consumes exactly those two bytes; save-then-load on the same controller is
the identity. -/
theorem C12_SaveState_LoadState (s t : GameGearIOPorts) (stream rest : List u8) :
    s.SaveState stream = stream ++ [s.m_Port3F, s.m_Port3F_HC] ∧
    (s.SaveState stream).length = stream.length + 2 ∧
    t.LoadState (s.SaveState [] ++ rest) =
      ({ t with m_Port3F := s.m_Port3F, m_Port3F_HC := s.m_Port3F_HC }, rest) ∧
    (t.LoadState (s.SaveState [])).1.m_Port3F = s.m_Port3F ∧
    (t.LoadState (s.SaveState [])).1.m_Port3F_HC = s.m_Port3F_HC ∧
    (s.LoadState (s.SaveState [])).1 = s := by
  refine ⟨?_, ?_, rfl, rfl, rfl, rfl⟩
  · simp [SaveState]
  · simp [SaveState]

theorem noSelfLink_exec {sys sys1 : System} (h : NoSelfLink sys) (self : Nat) (call : Call)
    (hs : exec sys self call = some sys1) : NoSelfLink sys1 := by
  refine pres_exec (P := fun j c => c.m_linkedGameGear ≠ some j) ?_ ?_ ?_ ?_ ?_ ?_ h self call hs
  · intro j c d hl _ _ hc
    rw [hl]; exact hc
  · intro j c hc; exact hc
  · intro j c hc
    unfold StartTransfer
    split
    · exact hc
    · exact hc
  · intro j c x hc _; exact hc
  · intro j c x p hc; exact hc
  · intro j c o hc
    unfold setLinkedPorts
    split
    · exact hc
    · rename_i ho; exact ho

/-- `setLinkedPorts` called with any argument `o` other than the controller
itself (another controller or none) makes `o` the peer reference and changes no
other member, collaborator or console. -/
theorem setLinkedPorts_other (sys : System) (self : Nat) (o : Option Nat) (ho : o ≠ some self) :
    (sys self).io.setLinkedPorts self o = { (sys self).io with m_linkedGameGear := o } ∧
    exec sys self (Call.setLinkedPorts o) =
      some (store sys self { (sys self).io with m_linkedGameGear := o }) := by
  have h1 : (sys self).io.setLinkedPorts self o =
      { (sys self).io with m_linkedGameGear := o } := by
    simp [setLinkedPorts, ho]
  refine ⟨h1, ?_⟩
  show some (store sys self ((sys self).io.setLinkedPorts self o)) = _
  rw [h1]

/-- From a system in which no controller is its own peer, no public call on
any console ever makes one its own peer. -/
theorem noSelfLink_reachableFrom (sys sys1 : System) (hno : NoSelfLink sys)
    (hr : ReachableFrom anyCall sys sys1) : NoSelfLink sys1 := by
  induction hr with
  | refl => exact hno
  | step s s1 i call _ _ hs ih => exact noSelfLink_exec ih i call hs

theorem DoInput_00 (sys : System) (self : Nat) :
    DoInput sys self 0x00 =
      (if !(sys self).ext.zoneIsJapanGG then (sys self).ext.GetPort00 ||| 0x40
        else (sys self).ext.GetPort00, sys) :=
  rfl

theorem DoInput_01_none (sys : System) (self : Nat)
    (hl : (sys self).io.m_linkedGameGear = none) :
    (DoInput sys self 0x01).1 = (sys self).io.m_Port1 &&& 0x7F := by
  show (match (sys self).io.m_linkedGameGear with
    | none => ((sys self).io.m_Port1 &&& 0x7F, sys)
    | some peer => (_, sys) : u8 × System).1 = _
  rw [hl]

/-- The seven conditional bit copies of the port `0x01` read, in source
order. -/
theorem DoInput_01_some (sys : System) (self peer : Nat)
    (hl : (sys self).io.m_linkedGameGear = some peer) :
    (DoInput sys self 0x01).1 =
      copyPeerBit (sys peer).io
        (copyPeerBit (sys peer).io
          (copyPeerBit (sys peer).io
            (copyPeerBit (sys peer).io
              (copyPeerBit (sys peer).io
                (copyPeerBit (sys peer).io
                  (copyPeerBit (sys peer).io (sys self).io.m_Port1 0 2) 1 3) 2 0) 3 1) 4 5) 5 4)
        6 6 &&& 0x7F := by
  show (match (sys self).io.m_linkedGameGear with
    | none => ((sys self).io.m_Port1 &&& 0x7F, sys)
    | some peer => (_, sys) : u8 × System).1 = _
  rw [hl]
  rfl

theorem getBit_copyPeerBit (l : GameGearIOPorts) (r d s k : u8) (hd : d.val < 8)
    (hk : k.val < 8) :
    getBit (copyPeerBit l r d s) k =
      if l.isOutputBit s = true ∧ k = d then getBit l.m_Port1 s else getBit r k := by
  unfold copyPeerBit
  exact getBit_condUpdate _ _ _ _ _ hd hk

/-- Bit `k` of a port `0x01` read with a peer `l`, for own pad byte `r`. -/
theorem port1_bit (l : GameGearIOPorts) (r k : u8) (hk : k.val < 8) :
    getBit (copyPeerBit l (copyPeerBit l (copyPeerBit l (copyPeerBit l (copyPeerBit l
      (copyPeerBit l (copyPeerBit l r 0 2) 1 3) 2 0) 3 1) 4 5) 5 4) 6 6 &&& 0x7F) k =
      if k = 7 then false
      else if l.isOutputBit 6 = true ∧ k = 6 then getBit l.m_Port1 6
      else if l.isOutputBit 4 = true ∧ k = 5 then getBit l.m_Port1 4
      else if l.isOutputBit 5 = true ∧ k = 4 then getBit l.m_Port1 5
      else if l.isOutputBit 1 = true ∧ k = 3 then getBit l.m_Port1 1
      else if l.isOutputBit 0 = true ∧ k = 2 then getBit l.m_Port1 0
      else if l.isOutputBit 3 = true ∧ k = 1 then getBit l.m_Port1 3
      else if l.isOutputBit 2 = true ∧ k = 0 then getBit l.m_Port1 2
      else getBit r k := by
  rw [getBit_and_7F _ _ hk, getBit_copyPeerBit _ _ _ _ _ (by decide) hk,
    getBit_copyPeerBit _ _ _ _ _ (by decide) hk, getBit_copyPeerBit _ _ _ _ _ (by decide) hk,
    getBit_copyPeerBit _ _ _ _ _ (by decide) hk, getBit_copyPeerBit _ _ _ _ _ (by decide) hk,
    getBit_copyPeerBit _ _ _ _ _ (by decide) hk, getBit_copyPeerBit _ _ _ _ _ (by decide) hk]

theorem isOutputBit_spec (c : GameGearIOPorts) (b : u8) :
    (b = 4 ∧ (c.m_Port5 &&& 0x10) ≠ 0 → c.isOutputBit b = true) ∧
    (¬ (b = 4 ∧ (c.m_Port5 &&& 0x10) ≠ 0) → b = 5 ∧ (c.m_Port5 &&& 0x20) ≠ 0 →
      c.isOutputBit b = false) ∧
    (¬ (b = 4 ∧ (c.m_Port5 &&& 0x10) ≠ 0) → ¬ (b = 5 ∧ (c.m_Port5 &&& 0x20) ≠ 0) →
      (c.isOutputBit b = true ↔ getBit c.m_Port2 b = false)) := by
  have h4 := getBit_4_iff c.m_Port5
  have h5 := getBit_5_iff c.m_Port5
  unfold isOutputBit
  refine ⟨?_, ?_, ?_⟩
  · intro h
    rw [if_pos ⟨h.1, h4.2 h.2⟩]
  · intro hn h
    rw [if_neg (fun hh => hn ⟨hh.1, h4.1 hh.2⟩), if_pos ⟨h.1, h5.2 h.2⟩]
  · intro hn1 hn2
    rw [if_neg (fun hh => hn1 ⟨hh.1, h4.1 hh.2⟩), if_neg (fun hh => hn2 ⟨hh.1, h5.1 hh.2⟩)]
    cases getBit c.m_Port2 b <;> simp

/-- C14: `DoInput(0x01)` changes no state of any controller. With no peer
linked it returns `Port1 & 0x7F`. With a peer linked, bit 7 of the result is 0
and for each (destination, source) pair in
{(0,2), (1,3), (2,0), (3,1), (4,5), (5,4), (6,6)} result bit `destination` is
the peer's Port1 bit `source` when the peer's `isOutputBit(source)` is true and
the controller's own Port1 bit `destination` otherwise. `isOutputBit(b)` is
true if `b = 4` and port 5 bit 4 is set; otherwise false if `b = 5` and port 5
bit 5 is set; otherwise true exactly when bit `b` of port 2 is clear. -/
theorem C14_read_port1 (sys : System) (self : Nat) :
    (DoInput sys self 0x01).2 = sys ∧
    ((sys self).io.m_linkedGameGear = none →
      (DoInput sys self 0x01).1 = (sys self).io.m_Port1 &&& 0x7F) ∧
    (∀ peer, (sys self).io.m_linkedGameGear = some peer →
      getBit (DoInput sys self 0x01).1 7 = false ∧
      ∀ p ∈ [((0 : u8), (2 : u8)), (1, 3), (2, 0), (3, 1), (4, 5), (5, 4), (6, 6)],
        getBit (DoInput sys self 0x01).1 p.1 =
          if (sys peer).io.isOutputBit p.2 = true then getBit (sys peer).io.m_Port1 p.2
          else getBit (sys self).io.m_Port1 p.1) ∧
    (∀ (c : GameGearIOPorts) (b : u8),
      (b = 4 ∧ (c.m_Port5 &&& 0x10) ≠ 0 → c.isOutputBit b = true) ∧
      (¬ (b = 4 ∧ (c.m_Port5 &&& 0x10) ≠ 0) → b = 5 ∧ (c.m_Port5 &&& 0x20) ≠ 0 →
        c.isOutputBit b = false) ∧
      (¬ (b = 4 ∧ (c.m_Port5 &&& 0x10) ≠ 0) → ¬ (b = 5 ∧ (c.m_Port5 &&& 0x20) ≠ 0) →
        (c.isOutputBit b = true ↔ getBit c.m_Port2 b = false))) := by
  refine ⟨DoInput_01 sys self, DoInput_01_none sys self, ?_, isOutputBit_spec⟩
  intro peer hl
  rw [DoInput_01_some sys self peer hl]
  constructor
  · rw [port1_bit _ _ _ (by decide)]
    simp
  · intro p hp
    simp only [List.mem_cons, List.mem_singleton, List.not_mem_nil, or_false] at hp
    rcases hp with h | h | h | h | h | h | h <;> subst h <;>
      rw [port1_bit _ _ _ (by decide)] <;> simp

/-- C15: `DoInput(0x00)` returns the pad byte `p` of the input device with
bit 6 forced to 1 (`p | 0x40`: bit 6 set, every other bit as in `p`) when the
cartridge zone is not the Japan Game Gear variant, and exactly `p` when it is;
it changes no state, and the result does not depend on the controller's
registers, in particular not on what was written to port `0x00`. -/
theorem C15_read_port0 (sys : System) (self : Nat) :
    ((sys self).ext.zoneIsJapanGG = false →
      (DoInput sys self 0x00).1 = (sys self).ext.GetPort00 ||| 0x40 ∧
      ((DoInput sys self 0x00).1 &&& 0x40) = 0x40 ∧
      ((DoInput sys self 0x00).1 &&& 0xBF) = ((sys self).ext.GetPort00 &&& 0xBF)) ∧
    ((sys self).ext.zoneIsJapanGG = true →
      (DoInput sys self 0x00).1 = (sys self).ext.GetPort00) ∧
    (DoInput sys self 0x00).2 = sys ∧
    (∀ c : GameGearIOPorts,
      (DoInput (store sys self c) self 0x00).1 = (DoInput sys self 0x00).1) ∧
    (∀ v : u8, ∃ sys1, DoOutput sys self 0x00 v = some sys1 ∧
      (DoInput sys1 self 0x00).1 = (DoInput sys self 0x00).1) := by
  refine ⟨?_, ?_, rfl, ?_, ?_⟩
  · intro hz
    have h : (DoInput sys self 0x00).1 = (sys self).ext.GetPort00 ||| 0x40 := by
      rw [DoInput_00]; simp [hz]
    rw [h]
    exact ⟨rfl, (or_40_bits _).1, (or_40_bits _).2⟩
  · intro hz
    rw [DoInput_00]; simp [hz]
  · intro c
    rw [DoInput_00, DoInput_00, store_same]
  · intro v
    refine ⟨_, DoOutput_00 sys self v, ?_⟩
    rw [DoInput_00, DoInput_00, store_same]

/-! ## Port 2 and the I/O control port -/

/-- With a processor behind `GetProcessor()`, a port `0x02` write stores the
byte, changes nothing else in the controller, and requests an NMI exactly when
bit 7 of the old port 2 is clear, its bit 6 is set and bit 6 of the new value
is clear. -/
theorem DoOutput_02_with_processor (sys : System) (self : Nat) (v : u8)
    (hp : (sys self).ext.hasProcessor = true) :
    ∃ sys1, DoOutput sys self 0x02 v = some sys1 ∧
      (sys1 self).io = { (sys self).io with m_Port2 := v } ∧
      (sys1 self).ext = (sys self).ext ∧
      (sys1 self).effects =
        (if ((sys self).io.m_Port2 &&& 0x80) = 0 ∧ ((sys self).io.m_Port2 &&& 0x40) ≠ 0 ∧
            (v &&& 0x40) = 0
          then (sys self).effects ++ [Effect.RequestNMI] else (sys self).effects) ∧
      (∀ j, j ≠ self → sys1 j = sys j) := by
  rw [DoOutput_02]
  by_cases h7 : ((sys self).io.m_Port2 &&& 0x80) = 0
  · by_cases h6 : ((sys self).io.m_Port2 &&& 0x40) ≠ 0 ∧ (v &&& 0x40) = 0
    · rw [if_pos h7, if_pos h6, if_pos hp]
      refine ⟨_, rfl, ?_, ?_, ?_, ?_⟩
      · rw [store_same]
      · rw [store_same]; simp [emit]
      · rw [store_same, if_pos ⟨h7, h6.1, h6.2⟩]; simp [emit]
      · intro j hj
        rw [store_other _ _ _ _ hj]
        simp [emit, Function.update_noteq hj]
    · rw [if_pos h7, if_neg h6]
      refine ⟨_, rfl, ?_, ?_, ?_, ?_⟩
      · rw [store_same]
      · rw [store_same]
      · rw [store_same, if_neg (fun hh => h6 ⟨hh.2.1, hh.2.2⟩)]
      · intro j hj; exact store_other _ _ _ _ hj
  · rw [if_neg h7]
    refine ⟨_, rfl, ?_, ?_, ?_, ?_⟩
    · rw [store_same]
    · rw [store_same]
    · rw [store_same, if_neg (fun hh => h7 hh.1)]
    · intro j hj; exact store_other _ _ _ _ hj

/-- C16 (evaluation at the failing input): console 0 of the sample system
without a processor. The write `DoOutput(0x02, 0x40)` goes through (bit 7 of
the old port 2 is set, no NMI is due). The next write `DoOutput(0x02, 0x00)`
meets the NMI condition (old bit 7 clear, old bit 6 set, new bit 6 clear) and
has no outcome: `GetProcessor()->RequestNMI()` runs on a null pointer before
`m_Port2` is assigned. The receive path on the same console, with the receive
interrupt enabled, does return: it tests the pointer first. -/
theorem C16_null_processor_write :
    ∃ s1, DoOutput sampleNoProcessor 0 0x02 0x40 = some s1 ∧
      (s1 0).io.m_Port2 = 0x40 ∧
      (s1 0).ext.hasProcessor = false ∧
      ((s1 0).io.m_Port2 &&& 0x80) = 0 ∧ ((s1 0).io.m_Port2 &&& 0x40) ≠ 0 ∧
      ((0x00 : u8) &&& 0x40) = 0 ∧
      (s1 0).io.hasTriggeredParallelNMI (s1 0).io.m_Port2 0x00 = true ∧
      DoOutput s1 0 0x02 0x00 = none ∧
      (s1 0).io.isReceiveInterruptEnabled = true ∧
      (receiveSerial (s1 0) 0x55).io.m_Port4 = 0x55 ∧
      (receiveSerial (s1 0) 0x55).effects = (s1 0).effects :=
  ⟨_, rfl, by decide, by decide, by decide, by decide, by decide, by decide, rfl, by decide,
    by decide, by decide⟩

/-- C17 (evaluation at the failing input): on the sample system two
consecutive writes of `0x08` to port `0x3F` latch the H-counter twice: the
first write stores `0x08 & 0x05 = 0` in `m_Port3F_HC`, so bit 3 still counts as
clear at the second write. Two consecutive writes of `0x01` latch once. -/
theorem C17_bit3_latches_again :
    ∃ s1 s2, DoOutput sampleSystem 0 0x3F 0x08 = some s1 ∧
      latchCount (s1 0).effects = 1 ∧ (s1 0).io.m_Port3F_HC = 0x00 ∧
      DoOutput s1 0 0x3F 0x08 = some s2 ∧
      latchCount (s2 0).effects = 2 ∧
      (∃ t1 t2, DoOutput sampleSystem 0 0x3F 0x01 = some t1 ∧
        DoOutput t1 0 0x3F 0x01 = some t2 ∧
        latchCount (t1 0).effects = 1 ∧ latchCount (t2 0).effects = 1) :=
  ⟨_, _, rfl, by decide, by decide, rfl, by decide, _, _, rfl, rfl, by decide, by decide⟩

theorem emit_ext (sys : System) (i j : Nat) (e : Effect) : (emit sys i e j).ext = (sys j).ext := by
  unfold emit
  by_cases h : j = i
  · subst h; simp
  · simp [Function.update_noteq h]

theorem DoInput_C1 (sys : System) (self : Nat) :
    DoInput sys self 0xC1 =
      (((sys self).ext.GetPortDD &&& 0x3F) ||| ((sys self).io.m_Port3F &&& 0xC0), sys) :=
  rfl

theorem DoInput_DD (sys : System) (self : Nat) :
    DoInput sys self 0xDD =
      (((sys self).ext.GetPortDD &&& 0x3F) ||| ((sys self).io.m_Port3F &&& 0xC0), sys) :=
  rfl

theorem odd_iff_and_01 : ∀ p : u8, (p &&& 0x01) = 0x00 ↔ p.val % 2 = 0 := by decide!

/-- C18 (as stated, refuted): with a Japan Game Gear cartridge a write of
`0x00` to port `0x3F` stores `0xC0` in `m_Port3F`; the byte stored for the same
write with another cartridge is `0x00`, and that byte inverted is `0xFF`. -/
theorem C18_japan_not_full_inversion :
    ∃ s t, DoOutput sampleSystem 0 0x3F 0x00 = some s ∧ (s 0).io.m_Port3F = 0x00 ∧
      (sampleJapan 0).ext.zoneIsJapanGG = true ∧
      DoOutput sampleJapan 0 0x3F 0x00 = some t ∧ (t 0).io.m_Port3F = 0xC0 ∧
      invertByte (s 0).io.m_Port3F = 0xFF ∧
      (t 0).io.m_Port3F ≠ invertByte (s 0).io.m_Port3F :=
  ⟨_, _, rfl, by decide, by decide, rfl, by decide, by decide, by decide⟩

/-- C18 (amended): for every byte `v` and every port in `0x07..0x3F`: a write
to an odd port stores in `m_Port3F` a byte with bit 7 equal to bit 7 of `v`,
bit 6 equal to bit 5 of `v` and bits 0-5 zero for a cartridge that is not the
Japan Game Gear variant, and that byte with bits 6 and 7 inverted (bits 0-5
still zero) for the Japan variant; a following `DoInput(0xC1)` or
`DoInput(0xDD)` returns `(port-DD byte & 0x3F) | (Port3F & 0xC0)`. A write to
an even port changes neither `m_Port3F` nor `m_Port3F_HC`. -/
theorem C18_port3F_amended (sys : System) (self : Nat) (port v : u8)
    (hlo : 0x07 ≤ port.val) (hhi : port.val < 0x40) :
    ∃ sys1, DoOutput sys self port v = some sys1 ∧
      (port.val % 2 = 1 →
        ((sys self).ext.zoneIsJapanGG = false →
          getBit (sys1 self).io.m_Port3F 7 = getBit v 7 ∧
          getBit (sys1 self).io.m_Port3F 6 = getBit v 5 ∧
          ((sys1 self).io.m_Port3F &&& 0x3F) = 0 ∧
          (sys1 self).io.m_Port3F =
            toU8 (((v.val &&& 0x80) ||| ((v.val &&& 0x20) <<< 1)) &&& 0xC0)) ∧
        ((sys self).ext.zoneIsJapanGG = true →
          getBit (sys1 self).io.m_Port3F 7 = !getBit v 7 ∧
          getBit (sys1 self).io.m_Port3F 6 = !getBit v 5 ∧
          ((sys1 self).io.m_Port3F &&& 0x3F) = 0 ∧
          (sys1 self).io.m_Port3F =
            toU8 (((v.val &&& 0x80) ||| ((v.val &&& 0x20) <<< 1)) &&& 0xC0) ^^^ 0xC0) ∧
        (DoInput sys1 self 0xC1).1 =
          (((sys self).ext.GetPortDD &&& 0x3F) ||| ((sys1 self).io.m_Port3F &&& 0xC0)) ∧
        (DoInput sys1 self 0xDD).1 =
          (((sys self).ext.GetPortDD &&& 0x3F) ||| ((sys1 self).io.m_Port3F &&& 0xC0))) ∧
      (port.val % 2 = 0 →
        (sys1 self).io.m_Port3F = (sys self).io.m_Port3F ∧
        (sys1 self).io.m_Port3F_HC = (sys self).io.m_Port3F_HC ∧
        (sys1 self).io = (sys self).io) := by
  have h7 : ¬ port.val < 0x07 := by omega
  rw [DoOutput_high sys self port v h7, if_pos hhi]
  by_cases hpar : (port &&& 0x01) = 0x00
  · have hev : port.val % 2 = 0 := (odd_iff_and_01 port).1 hpar
    rw [if_pos hpar]
    refine ⟨_, rfl, ?_, ?_⟩
    · intro h; omega
    · intro _
      rw [emit_io]
      exact ⟨rfl, rfl, rfl⟩
  · have hodd : port.val % 2 = 1 := by
      have := mt (odd_iff_and_01 port).2 hpar
      omega
    rw [if_neg hpar]
    refine ⟨_, rfl, ?_, ?_⟩
    · intro _
      have hext : ∀ (X : System) (c : GameGearIOPorts),
          (X self).ext = (sys self).ext → (store X self c self).ext = (sys self).ext := by
        intro X c hX
        rw [store_same]; exact hX
      have hX : ((if ((v &&& 0x01) ≠ 0 ∧ ((sys self).io.m_Port3F_HC &&& 0x01) = 0) ∨
            ((v &&& 0x08) ≠ 0 ∧ ((sys self).io.m_Port3F_HC &&& 0x08) = 0) then
          emit sys self Effect.LatchHCounter else sys) self).ext = (sys self).ext := by
        split
        · exact emit_ext _ _ _ _
        · rfl
      refine ⟨?_, ?_, ?_, ?_⟩
      · intro hz
        rw [store_same]
        simp only [hz, Bool.false_eq_true, ↓reduceIte]
        exact ⟨(port3F_bits v).1, (port3F_bits v).2.1, (port3F_bits v).2.2, trivial⟩
      · intro hz
        rw [store_same]
        simp only [hz, ↓reduceIte]
        exact ⟨(port3F_bits_japan v).1, (port3F_bits_japan v).2.1, (port3F_bits_japan v).2.2,
          trivial⟩
      · rw [DoInput_C1, hext _ _ hX]
      · rw [DoInput_DD, hext _ _ hX]
    · intro h; omega

/-- Witness for C18 (amended): port `0x3F`, value `0xA0`, on the sample
system with Japan Game Gear cartridges. -/
theorem C18_port3F_amended_witness :
    0x07 ≤ (0x3F : u8).val ∧ (0x3F : u8).val < 0x40 ∧
    ∃ sys1, DoOutput sampleJapan 0 0x3F 0xA0 = some sys1 ∧
      getBit (sys1 0).io.m_Port3F 7 = !getBit 0xA0 7 ∧
      getBit (sys1 0).io.m_Port3F 6 = !getBit 0xA0 5 ∧
      ((sys1 0).io.m_Port3F &&& 0x3F) = 0 := by
  obtain ⟨sys1, h1, h2, -⟩ := C18_port3F_amended sampleJapan 0 0x3F 0xA0 (by decide) (by decide)
  have h3 := (h2 (by decide)).2.1 (by decide)
  exact ⟨by decide, by decide, sys1, h1, h3.1, h3.2.1, h3.2.2.1⟩

/-! ## The parallel-mode bit wiring -/

theorem unscramble_scramble : ∀ x : u8,
    unscrambleParallelBits (scrambleParallelBits x) = (x &&& 0x7F) := by decide!

theorem scramble_unscramble : ∀ x : u8,
    scrambleParallelBits (unscrambleParallelBits x) = (x &&& 0x7F) := by decide!

theorem scramble_bit7 : ∀ x : u8,
    getBit (scrambleParallelBits x) 7 = false ∧ getBit (unscrambleParallelBits x) 7 = false := by
  decide!

theorem scramble_popCount : ∀ x : u8,
    popCount7 (scrambleParallelBits x) = popCount7 x ∧
    popCount7 (unscrambleParallelBits x) = popCount7 x := by
  decide!

theorem scramble_wiring : ∀ x : u8,
    getBit (scrambleParallelBits x) 2 = getBit x 0 ∧
    getBit (scrambleParallelBits x) 3 = getBit x 1 ∧
    getBit (scrambleParallelBits x) 1 = getBit x 2 ∧
    getBit (scrambleParallelBits x) 0 = getBit x 3 ∧
    getBit (scrambleParallelBits x) 5 = getBit x 4 ∧
    getBit (scrambleParallelBits x) 4 = getBit x 5 ∧
    getBit (scrambleParallelBits x) 6 = getBit x 6 := by
  decide!

theorem unscramble_wiring : ∀ x : u8,
    getBit (unscrambleParallelBits x) 0 = getBit x 2 ∧
    getBit (unscrambleParallelBits x) 1 = getBit x 3 ∧
    getBit (unscrambleParallelBits x) 2 = getBit x 1 ∧
    getBit (unscrambleParallelBits x) 3 = getBit x 0 ∧
    getBit (unscrambleParallelBits x) 4 = getBit x 5 ∧
    getBit (unscrambleParallelBits x) 5 = getBit x 4 ∧
    getBit (unscrambleParallelBits x) 6 = getBit x 6 := by
  decide!

/-- C19: for every byte `x`, `unscrambleParallelBits(scrambleParallelBits(x))`
and `scrambleParallelBits(unscrambleParallelBits(x))` both equal `x & 0x7F`;
both functions return bytes with bit 7 clear, keep the number of set bits among
bits 0-6, carry bit 6 to bit 6 and exchange bits 4 and 5. -/
theorem C19_scramble_unscramble (x : u8) :
    unscrambleParallelBits (scrambleParallelBits x) = (x &&& 0x7F) ∧
    scrambleParallelBits (unscrambleParallelBits x) = (x &&& 0x7F) ∧
    getBit (scrambleParallelBits x) 7 = false ∧
    getBit (unscrambleParallelBits x) 7 = false ∧
    popCount7 (scrambleParallelBits x) = popCount7 x ∧
    popCount7 (unscrambleParallelBits x) = popCount7 x ∧
    getBit (scrambleParallelBits x) 6 = getBit x 6 ∧
    getBit (scrambleParallelBits x) 5 = getBit x 4 ∧
    getBit (scrambleParallelBits x) 4 = getBit x 5 ∧
    getBit (unscrambleParallelBits x) 6 = getBit x 6 ∧
    getBit (unscrambleParallelBits x) 5 = getBit x 4 ∧
    getBit (unscrambleParallelBits x) 4 = getBit x 5 := by
  have hs := scramble_wiring x
  have hu := unscramble_wiring x
  exact ⟨unscramble_scramble x, scramble_unscramble x, (scramble_bit7 x).1, (scramble_bit7 x).2,
    (scramble_popCount x).1, (scramble_popCount x).2, hs.2.2.2.2.2.2, hs.2.2.2.2.1,
    hs.2.2.2.2.2.1, hu.2.2.2.2.2.2, hu.2.2.2.2.2.1, hu.2.2.2.2.1⟩

/-! ## No stuck transfer -/

theorem activeHasClocks_exec {sys sys1 : System} (h : ∀ j, ActiveHasClocks (sys j).io)
    (self : Nat) (call : Call) (hs : exec sys self call = some sys1) :
    ∀ j, ActiveHasClocks (sys1 j).io := by
  refine pres_exec (P := fun _ c => ActiveHasClocks c) ?_ ?_ ?_ ?_ ?_ ?_ h self call hs
  · intro j c d _ ha hc hP
    unfold ActiveHasClocks at *
    rw [ha, hc]; exact hP
  · intro j c _ hact
    exact absurd hact (by simp [Reset])
  · intro j c hP
    unfold StartTransfer
    split
    · exact hP
    · intro _
      exact calculateTransferClocks_pos c
  · intro j c x _ hx _
    exact hx
  · intro j c x p _ hact
    exact absurd hact (by simp)
  · intro j c o hP
    unfold setLinkedPorts
    split
    · exact hP
    · exact hP

theorem fresh_activeHasClocks {sys : System} (hf : Fresh sys) :
    ∀ j, ActiveHasClocks (sys j).io := by
  intro j hact
  obtain ⟨link, hl⟩ := hf j
  rw [hl] at hact
  exact absurd hact (by simp [construct, Reset])

theorem reachable_clocked_sampleActive : Reachable clockedCall sampleActive :=
  Reachable.step sampleSystem sampleActive 0 (Call.DoOutput 0x03 0x7E)
    (Reachable.init _ fresh_sampleSystem) trivial rfl

/-- C20: in every system reachable from freshly constructed controllers by
`Reset`, `DoInput`, `DoOutput`, `receiveSerial`, `SetBaudrate` (selector 0-3),
`LoadState` and `UpdateSerial` with non-negative `int` clock counts, a
controller whose transfer-active flag is set has a strictly positive clock
count left, so the `> 0` guard of `UpdateSerial` lets the call through; and one
`UpdateSerial` call with an `int` clock count of at least the count left ends
the transfer: the active flag is false and TXFL is clear afterwards. -/
theorem C20_no_stuck_transfer (sys : System) (hr : Reachable clockedCall sys) (i : Nat)
    (hact : (sys i).io.m_serial_transfer_active = true) :
    0 < (sys i).io.m_clocks_until_transfer_complete ∧
    ∀ clocks : Int, (sys i).io.m_clocks_until_transfer_complete ≤ clocks →
      clocks < 2147483648 →
      (UpdateSerial sys i clocks i).io.m_serial_transfer_active = false ∧
      ((UpdateSerial sys i clocks i).io.m_Port5 &&& 0x01) = 0 := by
  have hall : ∀ s, Reachable clockedCall s → ∀ j, ActiveHasClocks (s j).io := by
    intro s hs
    induction hs with
    | init s hf => exact fresh_activeHasClocks hf
    | step s s1 self call _ _ hs ih => exact activeHasClocks_exec ih self call hs
  have hpos : 0 < (sys i).io.m_clocks_until_transfer_complete := hall sys hr i hact
  refine ⟨hpos, ?_⟩
  intro clocks hge hlt
  rw [UpdateSerial_complete sys i clocks hact hpos (by omega) hlt hge]
  exact ⟨(sendSerial_self_idle _ _ _).2, (sendSerial_self_idle _ _ _).1⟩

/-- Witness for C20: console 0 of the sample system after it started a
transfer; 5965 clocks are left and one call with 6000 clocks ends it. -/
theorem C20_no_stuck_transfer_witness :
    Reachable clockedCall sampleActive ∧
    (sampleActive 0).io.m_serial_transfer_active = true ∧
    (sampleActive 0).io.m_clocks_until_transfer_complete = 5965 ∧
    0 < (sampleActive 0).io.m_clocks_until_transfer_complete ∧
    (UpdateSerial sampleActive 0 6000 0).io.m_serial_transfer_active = false ∧
    ((UpdateSerial sampleActive 0 6000 0).io.m_Port5 &&& 0x01) = 0 := by
  have h := C20_no_stuck_transfer sampleActive reachable_clocked_sampleActive 0 (by decide)
  have h2 := h.2 6000 (by decide) (by decide)
  exact ⟨reachable_clocked_sampleActive, by decide, by decide, h.1, h2.1, h2.2⟩

end GearSystem
